import Mathlib

/-!
Verification of the riscv-emulator specification against the repository's
sources.  The repository ships the guest test programs (C sources under
`test_resources/`), the board documentation and the spec; the Rust emulator
core itself is not present, so emulator-side components (bus fault selection,
CSR file, PLIC, trap engine, VirtIO block device processing) are modelled
from the spec's own component design, while everything decided by the guest
programs (prime counting, matmul checksum, uart output shaping, the
virtio_blk_test request layout) is translated directly from the C sources.

Machine integers are represented as `Nat` with explicit masking / `% 2^w`
where wrap-around matters; guest memory and the backing image are byte
functions `Nat → Nat` whose values are reduced `% 256` at every access.
-/

/-! ## Bus address map and fault selection (claim C3) -/

namespace BusModel

/-- Modelled from the spec: the guest-physical address map of §3 — half-open
ranges `(base, length)` for Power, CLINT, PLIC, UART, VirtIO-MMIO and RAM.
The Rust bus implementation is not in the repository. -/
def ranges : List (Nat × Nat) :=
  [(0x00100000, 0x02), (0x02000000, 0x10000), (0x0C000000, 0x04000000),
   (0x10000000, 0x08), (0x10001000, 0x1000), (0x80000000, 0x08000000)]

/-- An address is mapped when it falls in one of the device ranges. -/
def mapped (a : Nat) : Bool :=
  ranges.any (fun r => decide (r.1 ≤ a) && decide (a < r.1 + r.2))

inductive AccessKind where
  | load
  | store
deriving DecidableEq

/-- A synchronous fault: the mcause code and the mtval value. -/
structure Fault where
  cause : Nat
  mtval : Nat
deriving DecidableEq

/-- Modelled from the spec: fault selection for an access that does not hit a
mapped range.  Alignment is checked first — the trap_test guest
(`src/unnamed/part_006`) demands mcause 4 (load-misaligned) for the 8-byte
load at the unmapped, odd address 0x11110001 and mcause 6 for the store,
while the aligned unmapped accesses at 0x11110000 give 5 and 7; the spec's
end-to-end scenario 3 fixes the printed sequence `5 7 4 6`.  Accesses that
hit a mapped range are served by the device and raise no bus fault here. -/
def busFault (k : AccessKind) (width addr : Nat) : Option Fault :=
  if mapped addr then
    none
  else if addr % width ≠ 0 then
    some ⟨(match k with | .load => 4 | .store => 6), addr⟩
  else
    some ⟨(match k with | .load => 5 | .store => 7), addr⟩

end BusModel

/-! ## CSR file (claim C4) -/

namespace CsrFile

def mask64 : Nat := 0xffffffffffffffff

/-- Modelled from the spec §4.7: per-CSR write (WARL) masks.  `mip` lets
software write only SSI(1) and MSI(3) — MTI(7) and MEI(11) are device
driven; `mepc` bit 0 is never writable; `mtvec` mode is Direct(0) or
Vectored(1), so bit 1 of the mode field is pinned to zero. -/
def write_mask (addr : Nat) : Nat :=
  if addr = 0x300 then  -- mstatus: MIE, MPIE, MPP, FS, MPRV, SUM
    1 <<< 3 ||| 1 <<< 7 ||| 1 <<< 11 ||| 1 <<< 12 ||| 1 <<< 13 ||| 1 <<< 14 |||
      1 <<< 17 ||| 1 <<< 18
  else if addr = 0x304 then  -- mie: SSI MSI STI MTI SEI MEI enables
    1 <<< 1 ||| 1 <<< 3 ||| 1 <<< 5 ||| 1 <<< 7 ||| 1 <<< 9 ||| 1 <<< 11
  else if addr = 0x305 then  -- mtvec: base plus 1-bit mode
    mask64 ^^^ 2
  else if addr = 0x340 then  -- mscratch
    mask64
  else if addr = 0x341 then  -- mepc: low bit always zero
    mask64 ^^^ 1
  else if addr = 0x342 then  -- mcause
    mask64
  else if addr = 0x343 then  -- mtval
    mask64
  else if addr = 0x344 then  -- mip: software writes SSI(1), MSI(3) only
    1 <<< 1 ||| 1 <<< 3
  else
    0

/-- Modelled from the spec §3 lifecycle: harts reset with all CSRs zero, so
every CSR's reset contribution to a read is zero. -/
def reset_bits (_addr : Nat) : Nat := 0

/-- Modelled from the spec §4.7: bits a software write leaves at their prior
value.  Only `mip` has such bits — MTI(7)/MEI(11) (and the other non-SSI/MSI
lines) are device-driven; every other CSR's unwritable bits are pinned to
zero (WPRI reads-as-zero, the `mepc` low bit, the reserved `mtvec` mode
bit). -/
def preserve_mask (addr : Nat) : Nat :=
  if addr = 0x344 then mask64 ^^^ write_mask 0x344 else 0

/-- The machine-mode CSRs the guest tests exercise, all defined and
writable. -/
def writableCsrs : List Nat :=
  [0x300, 0x304, 0x305, 0x340, 0x341, 0x342, 0x343, 0x344]

/-- CSR backing store: 12-bit address to stored 64-bit word. -/
def CsrState : Type := Nat → Nat

/-- Modelled from the spec §4.7: a write lands through the per-bit WARL mask;
bits outside the mask (device-driven `mip` bits, the pinned `mepc` low bit)
keep their previous value. -/
def csr_write (s : CsrState) (addr v : Nat) : CsrState :=
  fun a =>
    if a = addr then
      (v &&& write_mask addr) ||| (s addr &&& preserve_mask addr)
    else s a

/-- Modelled from the spec §4.7: reads return the stored word. -/
def csr_read (s : CsrState) (addr : Nat) : Nat := s addr

/-- The reset store: all CSRs zero. -/
def resetState : CsrState := fun _ => 0

end CsrFile

/-! ## Zicsr access instructions (claim C7) -/

namespace Zicsr

/-- The six CSR access instructions of Zicsr. -/
inductive CsrOp where
  | rw
  | rs
  | rc
  | rwi
  | rsi
  | rci
deriving DecidableEq

/-- Outcome of one CSR access instruction on one CSR: whether the
architectural CSR read (with its side effects) happened, whether the CSR
write happened, the CSR value after the instruction, and the value delivered
to rd (`none` when no read occurred or rd is x0). -/
structure CsrEffect where
  didRead : Bool
  didWrite : Bool
  newCsr : Nat
  rdVal : Option Nat

/-- Modelled from the repository's CSR access-instruction table
(`src/unnamed/part_008`): CSRRW/CSRRWI always write (x0/uimm=0 writes zero)
and skip the read when rd is x0; CSRRS/CSRRC skip the read when rd is x0 and
skip the write when rs1 is x0; CSRRSI/CSRRCI read (with side effects) even
when rd is x0 and skip the write when uimm is 0.  All reads return the value
held before the write takes effect.  `old` is the CSR's prior value, `rs1Val`
the value of register rs1. -/
def csrExec (op : CsrOp) (rd rs1 rs1Val uimm old : Nat) : CsrEffect :=
  match op with
  | .rw =>
    { didRead := rd != 0, didWrite := true,
      newCsr := rs1Val &&& CsrFile.mask64,
      rdVal := if rd != 0 then some old else none }
  | .rs =>
    { didRead := rd != 0, didWrite := rs1 != 0,
      newCsr := if rs1 != 0 then old ||| (rs1Val &&& CsrFile.mask64) else old,
      rdVal := if rd != 0 then some old else none }
  | .rc =>
    { didRead := rd != 0, didWrite := rs1 != 0,
      newCsr :=
        if rs1 != 0 then
          old &&& (CsrFile.mask64 ^^^ (rs1Val &&& CsrFile.mask64))
        else old,
      rdVal := if rd != 0 then some old else none }
  | .rwi =>
    { didRead := rd != 0, didWrite := true,
      newCsr := uimm &&& 0x1f,
      rdVal := if rd != 0 then some old else none }
  | .rsi =>
    { didRead := true, didWrite := uimm != 0,
      newCsr := if uimm != 0 then old ||| (uimm &&& 0x1f) else old,
      rdVal := some old }
  | .rci =>
    { didRead := true, didWrite := uimm != 0,
      newCsr :=
        if uimm != 0 then old &&& (CsrFile.mask64 ^^^ (uimm &&& 0x1f))
        else old,
      rdVal := some old }

/-- The write-occurrence condition in the words of the spec §4.9: write
occurs iff rs1 is not x0 (non-immediate S/C) or uimm is nonzero (immediate
S/C), except CSRRW/CSRRWI always write. -/
def writeOccursSpec (op : CsrOp) (rs1 uimm : Nat) : Bool :=
  match op with
  | .rw | .rwi => true
  | .rs | .rc => rs1 != 0
  | .rsi | .rci => uimm != 0

end Zicsr

/-! ## Trap engine: ECALL, trap stacking, MRET (claim C6) -/

namespace TrapEngine

/-- Modelled from the spec §3/§4.8: the architectural state the trap engine
touches.  `priv` is 3 for M-mode; `mtvecMode` is 0 (Direct) or 1
(Vectored). -/
structure Hart where
  pc : Nat
  x : Nat → Nat
  priv : Nat
  mepc : Nat
  mcause : Nat
  mtval : Nat
  mstatusMIE : Bool
  mstatusMPIE : Bool
  mstatusMPP : Nat
  mtvecBase : Nat
  mtvecMode : Nat

/-- Modelled from the spec §4.8: trap delivery — mcause gets the interrupt
flag in bit 63 and the code below, mepc the PC of the faulting / not yet
executed instruction, mtval the exception-specific value; MPIE←MIE, MIE←0,
MPP←prior privilege, privilege←M; PC goes to mtvec.base, plus 4·code for a
vectored interrupt. -/
def trapEnter (h : Hart) (intr : Bool) (code tval : Nat) : Hart :=
  { h with
    mcause := (if intr then 1 <<< 63 else 0) + code,
    mepc := h.pc,
    mtval := tval,
    mstatusMPIE := h.mstatusMIE,
    mstatusMIE := false,
    mstatusMPP := h.priv,
    priv := 3,
    pc := if intr ∧ h.mtvecMode = 1 then h.mtvecBase + 4 * code
          else h.mtvecBase }

/-- Modelled from the spec §4.8: ECALL in M-mode raises the synchronous
exception ecall-from-M, code 11, with mtval zero; mepc holds the ECALL's own
PC (the handler advances it). -/
def execEcall (h : Hart) : Hart := trapEnter h false 11 0

/-- Modelled from the spec §4.8: MRET — PC←mepc, MIE←MPIE, MPIE←1,
privilege←MPP, MPP←U. -/
def mret (h : Hart) : Hart :=
  { h with
    pc := h.mepc,
    mstatusMIE := h.mstatusMPIE,
    mstatusMPIE := true,
    priv := h.mstatusMPP,
    mstatusMPP := 0 }

/-- The `trap_ctx->mepc += 4` performed by the ecall_test trap handler
(`src/unnamed/part_004`). -/
def advanceMepc (h : Hart) : Hart := { h with mepc := h.mepc + 4 }

/-- A concrete M-mode hart about to execute an ECALL at PC 100. -/
def sampleHart : Hart :=
  { pc := 100, x := fun r => r + 7, priv := 3, mepc := 0, mcause := 0,
    mtval := 0, mstatusMIE := true, mstatusMPIE := false, mstatusMPP := 0,
    mtvecBase := 0x800, mtvecMode := 0 }

end TrapEngine

/-! ## PLIC claim semantics (claim C5) -/

namespace PlicModel

/-- Modelled from the spec §4.5: PLIC state — per-source priority, pending
bits, per-context enable bits and threshold. -/
structure Plic where
  priority : Nat → Nat
  pending : Nat → Bool
  enable : Nat → Nat → Bool
  threshold : Nat → Nat

/-- Modelled from the spec §4.5: the pending set for context c is
`{i : enable[c][i] ∧ pending[i] ∧ priority[i] > threshold[c]}`. -/
def claimable (p : Plic) (c i : Nat) : Bool :=
  p.enable c i && p.pending i && decide (p.threshold c < p.priority i)

/-- Interrupt source ids 1..1023; source 0 does not exist and doubles as the
empty-claim return value. -/
def sourceIds : List Nat := List.range' 1 1023

/-- Arbitration between a candidate id i and the best id b found so far
(b = 0 meaning none): higher priority wins, a tie goes to the lower id. -/
def pickBest (p : Plic) (i b : Nat) : Nat :=
  if b = 0 then i
  else if p.priority b < p.priority i then i
  else if p.priority i < p.priority b then b
  else min i b

/-- The id with the highest priority, ties broken by the lowest id; 0 when
the list is empty. -/
def bestOf (p : Plic) : List Nat → Nat
  | [] => 0
  | i :: rest => pickBest p i (bestOf p rest)

/-- The id a claim-register read of context c returns. -/
def claimOf (p : Plic) (c : Nat) : Nat :=
  bestOf p (sourceIds.filter (claimable p c))

/-- Clear one source's pending bit, leaving everything else unchanged. -/
def clearPending (p : Plic) (i : Nat) : Plic :=
  { p with pending := fun j => if j = i then false else p.pending j }

/-- Modelled from the spec §4.5: a claim-register read returns the
highest-priority pending-set id (ties to the lowest id) and clears its
pending bit atomically with the read; when the pending set is empty it
returns 0 with no side effect. -/
def plicClaim (p : Plic) (c : Nat) : Nat × Plic :=
  let id := claimOf p c
  if id = 0 then (0, p)
  else (id, clearPending p id)

/-- A concrete PLIC: sources 10 and 12 pending at priority 5, source 20
pending at priority 3, all enabled for context 0 whose threshold is 1. -/
def samplePlic : Plic :=
  { priority := fun i => if i = 10 ∨ i = 12 then 5 else if i = 20 then 3 else 0,
    pending := fun i => decide (i = 10 ∨ i = 12 ∨ i = 20),
    enable := fun _ _ => true,
    threshold := fun _ => 1 }

end PlicModel

/-! ## Guest UART output library (claim C10, shared by C8 and C9) -/

namespace GuestIo

/-- LSR bit 5, Transmitter Holding Register Empty (UART_LSR_THRE in
test_resources/include/io.h). -/
def UART_LSR_THRE : Nat := 0x20

/-- The polling loop `while ((*uart_lsr & UART_LSR_THRE) == 0);` of uart_putc
(test_resources/lib/io.c): `lsr t` is the byte the t-th LSR read returns;
the result is the read cursor after the first poll that observes THRE set,
or none when THRE is not observed within `fuel` reads (the C loop spins
forever in that case). -/
def pollTHRE (lsr : Nat → Nat) (start fuel : Nat) : Option Nat :=
  match fuel with
  | 0 => none
  | fuel + 1 =>
    if lsr start &&& UART_LSR_THRE = 0 then pollTHRE lsr (start + 1) fuel
    else some (start + 1)

/-- uart_putc from test_resources/lib/io.c: wait for THRE, store the byte at
UART offset 0, and when the byte is the newline 10 wait for THRE again and
store the carriage return 13.  Returns the LSR read cursor afterwards and
the list of bytes stored, or none when a poll never sees THRE. -/
def uart_putc (lsr : Nat → Nat) (start fuel : Nat) (ch : Nat) :
    Option (Nat × List Nat) :=
  match pollTHRE lsr start fuel with
  | none => none
  | some t1 =>
    if ch = 10 then
      match pollTHRE lsr t1 fuel with
      | none => none
      | some t2 => some (t2, [10, 13])
    else some (t1, [ch])

/-- Successive uart_putc calls over a byte list, as print_str / vprintf
iterate over their text. -/
def putBytes (lsr : Nat → Nat) (start fuel : Nat) :
    List Nat → Option (Nat × List Nat)
  | [] => some (start, [])
  | ch :: rest =>
    match uart_putc lsr start fuel ch with
    | none => none
    | some (t1, out1) =>
      match putBytes lsr t1 fuel rest with
      | none => none
      | some (t2, out2) => some (t2, out1 ++ out2)

/-- The spec-side description of the UART byte stream: the text with a
carriage return (13) appended after each newline (10). -/
def expandNewlines : List Nat → List Nat
  | [] => []
  | c :: rest => (if c = 10 then [10, 13] else [c]) ++ expandNewlines rest

/-- An LSR oracle with THRE always set, as spec §4.2 states
(LSR reads return THRE=1 always). -/
def lsrAlwaysReady : Nat → Nat := fun _ => UART_LSR_THRE

/-- One guest-visible MMIO write. -/
inductive GuestEvent where
  | uartWrite (b : Nat)
  | powerWrite (v : Nat)
deriving DecidableEq

/-- PowerOff from test_resources/src/io_bench.c: `uart_putc('\n')` — the
newline plus the translated carriage return — then the store of the magic
0x5555 to the power device at 0x100000. -/
def PowerOffTrace : List GuestEvent :=
  (match uart_putc lsrAlwaysReady 0 1 10 with
   | some (_, bs) => bs.map GuestEvent.uartWrite
   | none => []) ++ [GuestEvent.powerWrite 0x5555]

/-- Modelled from the spec §4.3/§6: a write of the magic 0x5555 to the power
device terminates the run with exit code 0; any other value is ignored. -/
def powerWriteExit (v : Nat) : Option Nat :=
  if v = 0x5555 then some 0 else none

/-- The digit-extraction do-while of print_dec (test_resources/lib/io.c):
`do { buf[i++] = '0' + val % 10; val /= 10; } while (val);` — the C buffer
holds 32 chars, which bounds the loop; digits come out lowest first. -/
def decDigitsRev (v : Nat) (fuel : Nat) : List Nat :=
  match fuel with
  | 0 => []
  | fuel + 1 =>
    (48 + v % 10) :: (if v / 10 = 0 then [] else decDigitsRev (v / 10) fuel)

/-- print_dec from test_resources/lib/io.c: extract the digits of the
absolute value, append a minus sign (45) for negative input, pad with
`padChar` up to `width`, and emit the buffer reversed. -/
def print_dec (val : Int) (width : Nat) (padChar : Nat) : List Nat :=
  let ds := decDigitsRev val.natAbs 32
  let buf := if val < 0 then ds ++ [45] else ds
  (buf ++ List.replicate (width - buf.length) padChar).reverse

end GuestIo

/-! ## The prime guest (claim C8) -/

namespace PrimeGuest

/-- The trial-division loop of is_prime (test_resources/src/prime.c):
`for (int i = 2; i * i <= n; ++i) if (n % i == 0) return 0;` returning true
when the loop runs to completion.  `fuel` only makes the recursion
structural; the loop body runs at most √n times, so the initial fuel n + 1
is never exhausted. -/
def trialLoop (n i fuel : Nat) : Bool :=
  match fuel with
  | 0 => true
  | fuel + 1 =>
    if i * i ≤ n then
      if n % i = 0 then false else trialLoop n (i + 1) fuel
    else true

/-- is_prime from test_resources/src/prime.c; the guest only calls it on C
ints in [2, 20000), represented here as Nat (n ≤ 1 covers the `n <= 1`
early return). -/
def is_prime (n : Nat) : Nat :=
  if n ≤ 1 then 0 else if trialLoop n 2 (n + 1) then 1 else 0

/-- The count accumulated by prime.c's main loop: one per i in [s, s+len)
with is_prime(i) = 1.  Written as a countdown recursion (adding the window's
last index at each step) so the kernel can evaluate it without deep nesting;
it totals the same indicator sum as the ascending C loop. -/
def countPrimesIn (s : Nat) : Nat → Nat
  | 0 => 0
  | len + 1 => countPrimesIn s len + (if is_prime (s + len) = 1 then 1 else 0)

/-- The count prime.c prints: primes in [2, 20000) (indices 0 and 1
contribute nothing since is_prime rejects them). -/
def primeCount : Nat := countPrimesIn 0 20000

end PrimeGuest

/-! ## The matmul guest (claim C9) -/

namespace Matmul

def M32 : Nat := 4294967296

def M64 : Nat := 18446744073709551616

/-- Two's-complement wrap into the C `int` range, as signed 32-bit
arithmetic behaves on the rv64 target (2^31 and 2^32 written out). -/
def wrap32 (x : Int) : Int := (x + 2147483648) % 4294967296 - 2147483648

/-- A[i][j] = i + j from src/unnamed/part_002. -/
def A (i j : Nat) : Int := (i : Int) + (j : Int)

/-- B[i][j] = i - j from src/unnamed/part_002. -/
def B (i j : Nat) : Int := (i : Int) - (j : Int)

/-- C[i][j] after k loop iterations of the triple loop of
src/unnamed/part_002: starting from 0, `C[i][j] += tmp * B[k][j]` in `int`
arithmetic for ascending k (the i,k,j loop order of the source only
interleaves these per-entry accumulations). -/
def centryAux (i j : Nat) : Nat → Int
  | 0 => 0
  | k + 1 => wrap32 (centryAux i j k + wrap32 (A i k * B k j))

/-- C[i][j] after the full triple loop (k = 0..63). -/
def centry (i j : Nat) : Int := centryAux i j 64

/-- `(unsigned long)C[i][j]`: sign extension of the int value, read as an
unsigned 64-bit number. -/
def toU64 (x : Int) : Nat := (x % 18446744073709551616).toNat

/-- Partial checksum of row i: `sum += (unsigned long)C[i][j]` over
j < bound, wrapping 64-bit arithmetic, as in the final loop of
src/unnamed/part_002. -/
def rowSum (i : Nat) : Nat → Nat
  | 0 => 0
  | j + 1 => (rowSum i j + toU64 (centry i j)) % M64

/-- Checksum over the first i rows. -/
def checksumAux : Nat → Nat
  | 0 => 0
  | i + 1 => (checksumAux i + rowSum i 64) % M64

/-- The printed checksum: `sum` after both loops of src/unnamed/part_002. -/
def checksum : Nat := checksumAux 64

/-- Plain (unreduced) sum of the sign-extended entries of row i. -/
def plainRow (i : Nat) : Nat → Nat
  | 0 => 0
  | j + 1 => plainRow i j + toU64 (centry i j)

/-- Plain sum over the first i rows. -/
def plainSum : Nat → Nat
  | 0 => 0
  | i + 1 => plainSum i + plainRow i 64

/-- The spec-side formula: sum over all i, j of the sign-extended entry
C[i][j], reduced modulo 2^64 once. -/
def checksumSpec : Nat := plainSum 64 % M64

/-- The signed reading of a two's-complement 32-bit representative. -/
def toSigned (v : Nat) : Int :=
  if v < 2147483648 then (v : Int) else (v : Int) - 4294967296

/-- Two's-complement (Nat mod 2^32) mirror of A, used so the kernel can
evaluate the checksum with fast Nat arithmetic. -/
def An (i j : Nat) : Nat := (i + j) % M32

/-- Two's-complement mirror of B: i - j represented mod 2^32. -/
def Bn (i j : Nat) : Nat := (i + M32 - j) % M32

/-- Two's-complement mirror of centryAux. -/
def centryAuxN (i j : Nat) : Nat → Nat
  | 0 => 0
  | k + 1 => (centryAuxN i j k + An i k * Bn k j) % M32

/-- Two's-complement mirror of centry. -/
def centryN (i j : Nat) : Nat := centryAuxN i j 64

/-- Sign extension of a two's-complement 32-bit representative to 64 bits. -/
def sext (v : Nat) : Nat := if v < 2147483648 then v else M64 - M32 + v

/-- Mirror of rowSum over the two's-complement entries. -/
def rowSumN (i : Nat) : Nat → Nat
  | 0 => 0
  | j + 1 => (rowSumN i j + sext (centryN i j)) % M64

/-- Mirror of checksumAux. -/
def checksumAuxN : Nat → Nat
  | 0 => 0
  | i + 1 => (checksumAuxN i + rowSumN i 64) % M64

/-- Mirror of checksum, evaluated by the kernel. -/
def checksumN : Nat := checksumAuxN 64

end Matmul

/-! ## VirtIO-MMIO block device, split virtqueue (claims C1 and C2) -/

namespace Virtio

/-- Guest memory and the backing image are byte functions; every read
reduces the byte `% 256`. -/
def Bytes : Type := Nat → Nat

/-- Write a list of bytes at consecutive addresses. -/
def writeBytes (m : Bytes) (addr : Nat) : List Nat → Bytes
  | [] => m
  | b :: rest => writeBytes (fun a => if a = addr then b % 256 else m a)
      (addr + 1) rest

/-- Read n bytes from consecutive addresses. -/
def readBytes (m : Bytes) (addr : Nat) : Nat → List Nat
  | 0 => []
  | n + 1 => m addr % 256 :: readBytes m (addr + 1) n

/-- Little-endian value of n bytes at addr. -/
def readLE (m : Bytes) (addr : Nat) : Nat → Nat
  | 0 => 0
  | n + 1 => m addr % 256 + 256 * readLE m (addr + 1) n

/-- Modelled from the spec §3: a descriptor
`(paddr:u64, len:u32, flags:u16, next:u16)`. -/
structure VDesc where
  paddr : Nat
  len : Nat
  flags : Nat
  next : Nat

/-- VIRTQ_DESC_F_NEXT. -/
def FLAG_NEXT : Nat := 1

/-- VIRTQ_DESC_F_WRITE. -/
def FLAG_WRITE : Nat := 2

/-- Modelled from the spec §3/§4.6: the device-side view of one split
virtqueue, with the descriptor table and avail ring held abstractly (the
driver writes them through guest memory; the device reads them back). -/
structure VQueue where
  num : Nat
  desc : Nat → VDesc
  availIdx : Nat
  availRing : Nat → Nat
  usedIdx : Nat
  usedRing : List (Nat × Nat)
  lastAvailIdx : Nat

/-- The block device: its queue and the backing image. -/
structure BlkDev where
  q : VQueue
  disk : Bytes

/-- Modelled from the spec §4.6 step b: walk a chain from `head`, following
`next` while the NEXT flag is set; the chain length is bounded by `fuel`
(called with the queue size) to forbid cycles, and an out-of-range
descriptor index or exhausted bound fails the walk. -/
def walkChain (q : VQueue) (head : Nat) (fuel : Nat) : Option (List Nat) :=
  match fuel with
  | 0 => none
  | fuel + 1 =>
    if head < q.num then
      if (q.desc head).flags &&& FLAG_NEXT ≠ 0 then
        match walkChain q (q.desc head).next fuel with
        | none => none
        | some rest => some (head :: rest)
      else some [head]
    else none

/-- VIRTIO_BLK_T_IN (device writes guest memory). -/
def VIRTIO_BLK_T_IN : Nat := 0

/-- VIRTIO_BLK_T_OUT (device reads guest memory). -/
def VIRTIO_BLK_T_OUT : Nat := 1

/-- Modelled from the spec §4.6 steps c–g: classify the walked chain (first
descriptor = header, terminal descriptor = status byte, middle = data), read
the header `(type, sector)` from guest memory, copy data descriptors between
guest memory and the backing image at `sector·512` plus the cumulative
offset (IN: image → memory; OUT: memory → image; other types move no data
and get status UNSUPP=2), and finally write the status byte (0 = OK) at the
terminal descriptor's address.  Returns the new memory, the new image, and
the bytes-written-back count for the used element (data bytes written into
guest memory plus the status byte). -/
def processChain (mem : Bytes) (disk : Bytes) (q : VQueue)
    (chain : List Nat) : Bytes × Bytes × Nat :=
  let hd := q.desc (chain.headD 0)
  let st := q.desc (chain.getLastD 0)
  let dataDescs := (chain.drop 1).dropLast
  let reqType := readLE mem hd.paddr 4
  let sector := readLE mem (hd.paddr + 8) 8
  if reqType = VIRTIO_BLK_T_IN then
    let step := dataDescs.foldl
      (fun (acc : Bytes × Nat) di =>
        let d := q.desc di
        (writeBytes acc.1 d.paddr (readBytes disk (sector * 512 + acc.2) d.len),
          acc.2 + d.len))
      (mem, 0)
    (writeBytes step.1 st.paddr [0], disk, step.2 + 1)
  else if reqType = VIRTIO_BLK_T_OUT then
    let step := dataDescs.foldl
      (fun (acc : Bytes × Nat) di =>
        let d := q.desc di
        (writeBytes acc.1 (sector * 512 + acc.2) (readBytes mem d.paddr d.len),
          acc.2 + d.len))
      (disk, 0)
    (writeBytes mem st.paddr [0], step.1, 1)
  else
    (writeBytes mem st.paddr [2], disk, 1)

/-- Modelled from the spec §4.6 steps a–i for one chain: read the head index
from the avail ring at `last_avail_idx mod num`, walk it (walk failure or a
chain without separate header and status descriptors fails the queue),
process it, append `(head, len)` to the used ring, increment `used.idx`
(mod 2^16), and advance `last_avail_idx` (mod 2^16). -/
def processOne (mem : Bytes) (dev : BlkDev) : Option (Bytes × BlkDev) :=
  let head := dev.q.availRing (dev.q.lastAvailIdx % dev.q.num)
  match walkChain dev.q head dev.q.num with
  | none => none
  | some chain =>
    if chain.length < 2 then none
    else
      let r := processChain mem dev.disk dev.q chain
      some (r.1,
        { disk := r.2.1,
          q := { dev.q with
            usedRing := dev.q.usedRing ++ [(head, r.2.2)],
            usedIdx := (dev.q.usedIdx + 1) % 65536,
            lastAvailIdx := (dev.q.lastAvailIdx + 1) % 65536 } })

/-- The number of chains published in avail and not yet consumed:
`avail.idx - last_avail_idx` modulo 2^16. -/
def pendingCount (q : VQueue) : Nat :=
  (q.availIdx + 65536 - q.lastAvailIdx) % 65536

/-- The §4.6 step-2 loop, one iteration per pending chain; a failed chain
halts processing (the queue enters its FAILED state). -/
def notifyLoop (mem : Bytes) (dev : BlkDev) : Nat → Option (Bytes × BlkDev)
  | 0 => some (mem, dev)
  | k + 1 =>
    match processOne mem dev with
    | none => none
    | some (mem1, dev1) => notifyLoop mem1 dev1 k

/-- Modelled from the spec §4.6: the processing a guest store to QueueNotify
triggers, running synchronously until `last_avail_idx` catches up with
`avail.idx`. -/
def queueNotify (mem : Bytes) (dev : BlkDev) : Option (Bytes × BlkDev) :=
  notifyLoop mem dev (pendingCount dev.q)

end Virtio

/-! ## Concrete sample instances of the virtio device (C1 and C2 witnesses) -/

namespace Virtio

/-- Concrete guest memory for a sample OUT request: the 512-byte pattern
`a - 0x80002000` (i.e. i % 256 over the buffer) at 0x80002000, and an OUT
header — type 1, sector 0 — at 0x80001000. -/
def memW : Bytes := fun a =>
  if 0x80002000 ≤ a ∧ a < 0x80002200 then a - 0x80002000
  else if a = 0x80001000 then 1
  else 0

/-- A sample 8-entry queue holding the 3-descriptor chain of
virtio_blk_test: header at index 0, one 512-byte data descriptor, a 1-byte
status descriptor; one chain published in avail. -/
def qW : VQueue :=
  { num := 8,
    desc := fun i =>
      if i = 0 then ⟨0x80001000, 16, 1, 1⟩
      else if i = 1 then ⟨0x80002000, 512, 1, 2⟩
      else if i = 2 then ⟨0x80003000, 1, 2, 0⟩
      else ⟨0, 0, 0, 0⟩,
    availIdx := 1,
    availRing := fun _ => 0,
    usedIdx := 0,
    usedRing := [],
    lastAvailIdx := 0 }

/-- The sample device before the OUT request, over an all-zero image. -/
def devW : BlkDev := { q := qW, disk := fun _ => 0 }

/-- Zeroed driver memory for the read-back: the IN header (type 0, sector 0)
is all zero bytes. -/
def mem2W : Bytes := fun _ => 0

/-- The queue re-published for the IN request (data descriptor now
device-writable: flags NEXT|WRITE). -/
def q2W : VQueue :=
  { qW with
    desc := fun i =>
      if i = 0 then ⟨0x80001000, 16, 1, 1⟩
      else if i = 1 then ⟨0x80002000, 512, 3, 2⟩
      else if i = 2 then ⟨0x80003000, 1, 2, 0⟩
      else ⟨0, 0, 0, 0⟩ }

/-- The sample device before the IN request: its image is the one the OUT
request produced. -/
def dev2W : BlkDev :=
  { q := q2W,
    disk := writeBytes devW.disk (0 * 512) (readBytes memW 0x80002000 (1 * 512)) }

end Virtio

/-! ## Claim theorems for C3 and C4 -/

/-- Claim C3 counterexample: the claim says every load from an unmapped
guest-physical address raises load-access-fault (cause 5), explicitly
including misaligned addresses such as an 8-byte load at 0x11110001; but the
code (trap_test, `src/unnamed/part_006`, which FAILs unless the observed
mcause sequence is 5 7 4 6) makes that access raise load-address-misaligned,
cause 4. -/
theorem unmapped_misaligned_not_access_fault :
    BusModel.busFault BusModel.AccessKind.load 8 0x11110001 =
      some ⟨4, 0x11110001⟩ ∧
    BusModel.busFault BusModel.AccessKind.load 8 0x11110001 ≠
      some ⟨5, 0x11110001⟩ := by
  constructor
  · decide
  · decide

/-- Claim C3 (amended): an access to an unmapped guest-physical address that
is naturally aligned for its width raises load-access-fault (5) for a load
and store-access-fault (7) for a store, with mtval equal to the faulting
address; an unmapped access that is not naturally aligned instead raises the
misaligned fault (4 for a load, 6 for a store), again with mtval equal to
the faulting address. -/
theorem unmapped_access_fault_causes (width addr : Nat)
    (hunmapped : BusModel.mapped addr = false) :
    (addr % width = 0 →
      BusModel.busFault BusModel.AccessKind.load width addr = some ⟨5, addr⟩ ∧
      BusModel.busFault BusModel.AccessKind.store width addr = some ⟨7, addr⟩) ∧
    (addr % width ≠ 0 →
      BusModel.busFault BusModel.AccessKind.load width addr = some ⟨4, addr⟩ ∧
      BusModel.busFault BusModel.AccessKind.store width addr = some ⟨6, addr⟩) := by
  constructor
  · intro haligned
    simp [BusModel.busFault, hunmapped, haligned]
  · intro hmis
    simp [BusModel.busFault, hunmapped, hmis]

/-- Claim C3 amended witness: at the aligned unmapped address 0x11110000 an
8-byte load faults with cause 5 and a store with cause 7, both with mtval
0x11110000. -/
theorem unmapped_access_fault_causes_witness :
    BusModel.busFault BusModel.AccessKind.load 8 0x11110000 =
      some ⟨5, 0x11110000⟩ ∧
    BusModel.busFault BusModel.AccessKind.store 8 0x11110000 =
      some ⟨7, 0x11110000⟩ :=
  (unmapped_access_fault_causes 8 0x11110000 (by decide)).1 (by decide)

/-- Claim C4: for every defined writable CSR whose unwritable bits hold their
reset values, a write of v followed by a read returns
`(v &&& write_mask addr) ||| reset_bits addr`; moreover, for any prior
state, a software write to mip leaves the device-driven MTI(7) and MEI(11)
pending bits unchanged (in particular a write clearing bit 11 does not clear
it), and any write to mepc leaves its low bit reading zero. -/
theorem csr_write_read_round_trip (addr v : Nat)
    (haddr : addr ∈ CsrFile.writableCsrs) (s : CsrFile.CsrState)
    (hreset : s addr &&& CsrFile.preserve_mask addr =
      CsrFile.reset_bits addr) :
    CsrFile.csr_read (CsrFile.csr_write s addr v) addr =
      (v &&& CsrFile.write_mask addr) ||| CsrFile.reset_bits addr ∧
    (∀ (t : CsrFile.CsrState) (w : Nat),
      (CsrFile.csr_read (CsrFile.csr_write t 0x344 w) 0x344).testBit 11 =
        (CsrFile.csr_read t 0x344).testBit 11 ∧
      (CsrFile.csr_read (CsrFile.csr_write t 0x344 w) 0x344).testBit 7 =
        (CsrFile.csr_read t 0x344).testBit 7) ∧
    (∀ (t : CsrFile.CsrState) (w : Nat),
      (CsrFile.csr_read (CsrFile.csr_write t 0x341 w) 0x341).testBit 0 =
        false) := by
  refine ⟨?_, ?_, ?_⟩
  · simp only [CsrFile.csr_read, CsrFile.csr_write, if_pos rfl]
    rw [hreset]
    simp
  · intro t w
    constructor
    · simp only [CsrFile.csr_read, CsrFile.csr_write, if_pos rfl,
        Nat.testBit_or, Nat.testBit_and]
      have h1 : (CsrFile.write_mask 0x344).testBit 11 = false := by decide
      have h2 : (CsrFile.preserve_mask 0x344).testBit 11 = true := by decide
      simp [h1, h2]
    · simp only [CsrFile.csr_read, CsrFile.csr_write, if_pos rfl,
        Nat.testBit_or, Nat.testBit_and]
      have h1 : (CsrFile.write_mask 0x344).testBit 7 = false := by decide
      have h2 : (CsrFile.preserve_mask 0x344).testBit 7 = true := by decide
      simp [h1, h2]
  · intro t w
    simp only [CsrFile.csr_read, CsrFile.csr_write, if_pos rfl,
      Nat.testBit_or, Nat.testBit_and]
    have h1 : (CsrFile.write_mask 0x341).testBit 0 = false := by decide
    have h2 : (CsrFile.preserve_mask 0x341).testBit 0 = false := by decide
    simp [h1, h2]
    exact ⟨fun _ => by decide, fun _ => by decide⟩

/-- Claim C4 witness: from reset, writing 0xfff to mip reads back 0xa (only
SSI and MSI land), and the mip/mepc side conditions instantiate at bit
level. -/
theorem csr_write_read_round_trip_witness :
    CsrFile.csr_read
      (CsrFile.csr_write CsrFile.resetState 0x344 0xfff) 0x344 =
      (0xfff &&& CsrFile.write_mask 0x344) ||| CsrFile.reset_bits 0x344 := by
  have h := csr_write_read_round_trip 0x344 0xfff (by decide)
    CsrFile.resetState (by decide)
  exact h.1

/-! ## Claim theorems for C6 and C7 -/

/-- Claim C6: an ECALL executed in M-mode traps with mcause 11 and the
interrupt flag (bit 63) clear, mepc holds the address of the ECALL itself;
an MRET without touching mepc resumes at that same address (re-executing the
ECALL), while a handler that adds 4 to the saved mepc resumes at the
following instruction, with every general register — in particular a0..a5
and a7 — preserved, back in M-mode. -/
theorem ecall_trap_state (h : TrapEngine.Hart) (hpriv : h.priv = 3) :
    (TrapEngine.execEcall h).mcause = 11 ∧
    ((TrapEngine.execEcall h).mcause).testBit 63 = false ∧
    (TrapEngine.execEcall h).mepc = h.pc ∧
    (TrapEngine.mret (TrapEngine.execEcall h)).pc = h.pc ∧
    (TrapEngine.mret
      (TrapEngine.advanceMepc (TrapEngine.execEcall h))).pc = h.pc + 4 ∧
    (∀ r, (TrapEngine.mret
      (TrapEngine.advanceMepc (TrapEngine.execEcall h))).x r = h.x r) ∧
    (TrapEngine.mret
      (TrapEngine.advanceMepc (TrapEngine.execEcall h))).priv = 3 := by
  refine ⟨rfl, ?_, rfl, rfl, rfl, fun r => rfl, ?_⟩
  · have hc : (TrapEngine.execEcall h).mcause = 11 := rfl
    rw [hc]
    decide
  · simp [TrapEngine.mret, TrapEngine.advanceMepc, TrapEngine.execEcall,
      TrapEngine.trapEnter, hpriv]

/-- Claim C6 witness: the sample M-mode hart at PC 100 traps with mcause 11,
saves mepc 100, and after the handler's mepc += 4 an MRET lands on PC 104
with register a0 (x10) still holding its call-site value 17. -/
theorem ecall_trap_state_witness :
    (TrapEngine.execEcall TrapEngine.sampleHart).mcause = 11 ∧
    (TrapEngine.execEcall TrapEngine.sampleHart).mepc = 100 ∧
    (TrapEngine.mret (TrapEngine.advanceMepc
      (TrapEngine.execEcall TrapEngine.sampleHart))).pc = 104 ∧
    (TrapEngine.mret (TrapEngine.advanceMepc
      (TrapEngine.execEcall TrapEngine.sampleHart))).x 10 = 17 := by
  have h := ecall_trap_state TrapEngine.sampleHart rfl
  exact ⟨h.1, h.2.2.1, h.2.2.2.2.1, h.2.2.2.2.2.1 10⟩

/-- Claim C7: for each CSR access instruction, the CSR read (with its side
effects) occurs iff rd is not x0 for the non-immediate CSRRS/CSRRC; the CSR
write occurs iff rs1 is not x0 (non-immediate variants) or uimm is nonzero
(immediate variants), with CSRRW/CSRRWI always writing; and whenever a read
occurs it returns the CSR value from before the write takes effect. -/
theorem zicsr_read_write_occurrence (op : Zicsr.CsrOp)
    (rd rs1 rs1Val uimm old : Nat) :
    ((op = Zicsr.CsrOp.rs ∨ op = Zicsr.CsrOp.rc) →
      (Zicsr.csrExec op rd rs1 rs1Val uimm old).didRead = (rd != 0)) ∧
    (Zicsr.csrExec op rd rs1 rs1Val uimm old).didWrite =
      Zicsr.writeOccursSpec op rs1 uimm ∧
    (Zicsr.csrExec op rd rs1 rs1Val uimm old).rdVal =
      (if (Zicsr.csrExec op rd rs1 rs1Val uimm old).didRead then some old
       else none) := by
  cases op <;>
    simp [Zicsr.csrExec, Zicsr.writeOccursSpec]

/-- Claim C7 witness: a CSRRS with rd = x0 performs no CSR read. -/
theorem zicsr_read_write_occurrence_witness :
    (Zicsr.csrExec Zicsr.CsrOp.rs 0 3 5 0 7).didRead = (0 != 0) :=
  (zicsr_read_write_occurrence Zicsr.CsrOp.rs 0 3 5 0 7).1 (Or.inl rfl)

/-! ## Helper lemmas and the claim theorem for C5 -/

namespace PlicModel

theorem pickBest_pos (p : Plic) (i b : Nat) (hi : 0 < i) :
    0 < pickBest p i b := by
  unfold pickBest
  split_ifs with h1 h2 h3
  · exact hi
  · exact hi
  · omega
  · have hb : 0 < b := by omega
    omega

theorem bestOf_pos (p : Plic) (l : List Nat) (hne : l ≠ [])
    (h0 : ∀ i ∈ l, 0 < i) : 0 < bestOf p l := by
  cases l with
  | nil => exact absurd rfl hne
  | cons i rest =>
    exact pickBest_pos p i _ (h0 i (List.mem_cons_self i rest))

theorem bestOf_mem (p : Plic) (l : List Nat) (h : bestOf p l ≠ 0) :
    bestOf p l ∈ l := by
  induction l with
  | nil => simp [bestOf] at h
  | cons i rest ih =>
    simp only [bestOf] at h ⊢
    unfold pickBest at h ⊢
    split_ifs at h ⊢ with h1 h2 h3
    · exact List.mem_cons_self i rest
    · exact List.mem_cons_self i rest
    · exact List.mem_cons_of_mem i (ih h1)
    · rcases Nat.le_total i (bestOf p rest) with hle | hle
      · rw [Nat.min_eq_left hle]
        exact List.mem_cons_self i rest
      · rw [Nat.min_eq_right hle]
        exact List.mem_cons_of_mem i (ih h1)

theorem bestOf_max (p : Plic) (l : List Nat) (h0 : ∀ i ∈ l, 0 < i) :
    ∀ j ∈ l, p.priority j ≤ p.priority (bestOf p l) := by
  induction l with
  | nil => intro j hj; simp at hj
  | cons i rest ih =>
    intro j hj
    have ih' := ih (fun k hk => h0 k (List.mem_cons_of_mem i hk))
    by_cases hrest : rest = []
    · subst hrest
      rcases List.mem_cons.mp hj with hji | hjr
      · subst hji
        simp [bestOf, pickBest]
      · simp at hjr
    · have hbne : bestOf p rest ≠ 0 := by
        have := bestOf_pos p rest hrest
          (fun k hk => h0 k (List.mem_cons_of_mem i hk))
        omega
      simp only [bestOf]
      unfold pickBest
      split_ifs with h1 h2 h3
      · exact absurd h1 hbne
      · rcases List.mem_cons.mp hj with hji | hjr
        · subst hji; exact Nat.le_refl _
        · exact Nat.le_trans (ih' j hjr) (Nat.le_of_lt h2)
      · rcases List.mem_cons.mp hj with hji | hjr
        · subst hji; exact Nat.le_of_lt h3
        · exact ih' j hjr
      · have heq : p.priority i = p.priority (bestOf p rest) := by omega
        rcases Nat.le_total i (bestOf p rest) with hle | hle
        · rw [Nat.min_eq_left hle]
          rcases List.mem_cons.mp hj with hji | hjr
          · subst hji; exact Nat.le_refl _
          · exact Nat.le_trans (ih' j hjr) (Nat.le_of_eq heq.symm)
        · rw [Nat.min_eq_right hle]
          rcases List.mem_cons.mp hj with hji | hjr
          · subst hji; exact Nat.le_of_eq heq
          · exact ih' j hjr

theorem bestOf_tie_le (p : Plic) (l : List Nat) (h0 : ∀ i ∈ l, 0 < i) :
    ∀ j ∈ l, p.priority j = p.priority (bestOf p l) → bestOf p l ≤ j := by
  induction l with
  | nil => intro j hj; simp at hj
  | cons i rest ih =>
    intro j hj hpj
    have hpos : ∀ k ∈ rest, 0 < k :=
      fun k hk => h0 k (List.mem_cons_of_mem i hk)
    have ih' := ih hpos
    have hmax := bestOf_max p rest hpos
    by_cases hrest : rest = []
    · subst hrest
      rcases List.mem_cons.mp hj with hji | hjr
      · subst hji; simp [bestOf, pickBest]
      · simp at hjr
    · have hbne : bestOf p rest ≠ 0 := by
        have := bestOf_pos p rest hrest hpos
        omega
      simp only [bestOf] at hpj ⊢
      unfold pickBest at hpj ⊢
      split_ifs at hpj ⊢ with h1 h2 h3
      · exact absurd h1 hbne
      · rcases List.mem_cons.mp hj with hji | hjr
        · subst hji; exact Nat.le_refl _
        · have := hmax j hjr; omega
      · rcases List.mem_cons.mp hj with hji | hjr
        · subst hji; omega
        · exact ih' j hjr hpj
      · have heq : p.priority i = p.priority (bestOf p rest) := by omega
        rcases List.mem_cons.mp hj with hji | hjr
        · subst hji; exact Nat.min_le_left _ _
        · have hpj' : p.priority j = p.priority (bestOf p rest) := by
            rcases Nat.le_total i (bestOf p rest) with hle | hle
            · rw [Nat.min_eq_left hle] at hpj; omega
            · rw [Nat.min_eq_right hle] at hpj
              exact hpj
          exact Nat.le_trans (Nat.min_le_right _ _) (ih' j hjr hpj')

theorem sourceIds_pos : ∀ i ∈ sourceIds, 0 < i := by
  intro i hi
  have := List.mem_range'_1.mp hi
  omega

theorem claimOf_spec (p : Plic) (c : Nat) (h : claimOf p c ≠ 0) :
    claimOf p c ∈ sourceIds ∧ claimable p c (claimOf p c) = true := by
  have hmem := bestOf_mem p _ h
  have := List.mem_filter.mp hmem
  exact ⟨this.1, this.2⟩

theorem claimOf_eq_zero_iff (p : Plic) (c : Nat) :
    claimOf p c = 0 ↔ ∀ k ∈ sourceIds, claimable p c k = false := by
  constructor
  · intro h k hk
    by_contra hcl
    have hcl' : claimable p c k = true := by
      cases hh : claimable p c k
      · exact absurd hh hcl
      · rfl
    have hmem : k ∈ sourceIds.filter (claimable p c) :=
      List.mem_filter.mpr ⟨hk, hcl'⟩
    have hne : sourceIds.filter (claimable p c) ≠ [] := by
      intro hnil
      rw [hnil] at hmem
      simp at hmem
    have := bestOf_pos p _ hne
      (fun i hi => sourceIds_pos i (List.mem_filter.mp hi).1)
    unfold claimOf at h
    omega
  · intro h
    have hnil : sourceIds.filter (claimable p c) = [] := by
      apply List.filter_eq_nil.mpr
      intro a ha
      simp [h a ha]
    unfold claimOf
    rw [hnil]
    rfl

theorem claimable_clearPending (p : Plic) (i c k : Nat) (hk : k ≠ i) :
    claimable (clearPending p i) c k = claimable p c k := by
  simp [claimable, clearPending, hk]

theorem claimable_clearPending_self (p : Plic) (c i : Nat) :
    claimable (clearPending p i) c i = false := by
  simp [claimable, clearPending]

theorem plicClaim_fst_of_ne (p : Plic) (c : Nat) (h : claimOf p c ≠ 0) :
    plicClaim p c = (claimOf p c, clearPending p (claimOf p c)) := by
  simp [plicClaim, h]

theorem plicClaim_fst_of_eq (p : Plic) (c : Nat) (h : claimOf p c = 0) :
    plicClaim p c = (0, p) := by
  simp [plicClaim, h]

end PlicModel

/-- Claim C5: a claim-register read for context c with a non-empty pending
set returns the pending-set id with the highest priority — ties broken by
the lowest id — and atomically clears exactly that id's pending bit; an
empty pending set reads 0 with no side effect; and a second claim on the
resulting state (no re-assertion happening in between) returns some j
different from the first id i, with priority at most i's whenever it is a
real claim. -/
theorem plic_claim_semantics (p : PlicModel.Plic) (c : Nat)
    (hne : PlicModel.claimOf p c ≠ 0) :
    (PlicModel.plicClaim p c).1 = PlicModel.claimOf p c ∧
    PlicModel.claimable p c ((PlicModel.plicClaim p c).1) = true ∧
    (∀ k ∈ PlicModel.sourceIds, PlicModel.claimable p c k = true →
      p.priority k ≤ p.priority ((PlicModel.plicClaim p c).1)) ∧
    (∀ k ∈ PlicModel.sourceIds, PlicModel.claimable p c k = true →
      p.priority k = p.priority ((PlicModel.plicClaim p c).1) →
      (PlicModel.plicClaim p c).1 ≤ k) ∧
    ((PlicModel.plicClaim p c).2).pending ((PlicModel.plicClaim p c).1) =
      false ∧
    (∀ k, k ≠ (PlicModel.plicClaim p c).1 →
      ((PlicModel.plicClaim p c).2).pending k = p.pending k) ∧
    (∀ (q : PlicModel.Plic) (d : Nat),
      (∀ k ∈ PlicModel.sourceIds, PlicModel.claimable q d k = false) →
      PlicModel.plicClaim q d = (0, q)) ∧
    (PlicModel.plicClaim ((PlicModel.plicClaim p c).2) c).1 ≠
      (PlicModel.plicClaim p c).1 ∧
    ((PlicModel.plicClaim ((PlicModel.plicClaim p c).2) c).1 ≠ 0 →
      p.priority ((PlicModel.plicClaim ((PlicModel.plicClaim p c).2) c).1) ≤
        p.priority ((PlicModel.plicClaim p c).1)) := by
  have hfst : (PlicModel.plicClaim p c).1 = PlicModel.claimOf p c := by
    rw [PlicModel.plicClaim_fst_of_ne p c hne]
  have hsnd : (PlicModel.plicClaim p c).2 =
      PlicModel.clearPending p (PlicModel.claimOf p c) := by
    rw [PlicModel.plicClaim_fst_of_ne p c hne]
  have hspec := PlicModel.claimOf_spec p c hne
  have hfilterpos : ∀ i ∈ PlicModel.sourceIds.filter (PlicModel.claimable p c),
      0 < i :=
    fun i hi => PlicModel.sourceIds_pos i (List.mem_filter.mp hi).1
  refine ⟨hfst, ?_, ?_, ?_, ?_, ?_, ?_, ?_, ?_⟩
  · rw [hfst]; exact hspec.2
  · intro k hk hck
    rw [hfst]
    exact PlicModel.bestOf_max p _ hfilterpos k
      (List.mem_filter.mpr ⟨hk, hck⟩)
  · intro k hk hck hpk
    rw [hfst]
    rw [hfst] at hpk
    exact PlicModel.bestOf_tie_le p _ hfilterpos k
      (List.mem_filter.mpr ⟨hk, hck⟩) hpk
  · rw [hfst, hsnd]
    simp [PlicModel.clearPending]
  · intro k hk
    rw [hfst] at hk
    rw [hsnd]
    simp [PlicModel.clearPending, hk]
  · intro q d hempty
    exact PlicModel.plicClaim_fst_of_eq q d
      ((PlicModel.claimOf_eq_zero_iff q d).mpr hempty)
  · -- the second claim returns a different id
    rw [hfst, hsnd]
    by_cases h0 : PlicModel.claimOf
        (PlicModel.clearPending p (PlicModel.claimOf p c)) c = 0
    · rw [PlicModel.plicClaim_fst_of_eq _ c h0]
      intro heq
      exact hne heq.symm
    · rw [PlicModel.plicClaim_fst_of_ne _ c h0]
      intro heq
      have heq' : PlicModel.claimOf
          (PlicModel.clearPending p (PlicModel.claimOf p c)) c =
          PlicModel.claimOf p c := heq
      have hcl2 := (PlicModel.claimOf_spec _ c h0).2
      rw [heq', PlicModel.claimable_clearPending_self] at hcl2
      exact Bool.false_ne_true hcl2
  · -- the second claim has no higher priority
    rw [hfst, hsnd]
    by_cases h0 : PlicModel.claimOf
        (PlicModel.clearPending p (PlicModel.claimOf p c)) c = 0
    · rw [PlicModel.plicClaim_fst_of_eq _ c h0]
      intro hj
      exact absurd rfl hj
    · rw [PlicModel.plicClaim_fst_of_ne _ c h0]
      intro _
      have hspec2 := PlicModel.claimOf_spec _ c h0
      have hne2 : PlicModel.claimOf
          (PlicModel.clearPending p (PlicModel.claimOf p c)) c ≠
          PlicModel.claimOf p c := by
        intro heq
        have hcl2 := hspec2.2
        rw [heq, PlicModel.claimable_clearPending_self] at hcl2
        exact Bool.false_ne_true hcl2
      have hclp : PlicModel.claimable p c (PlicModel.claimOf
          (PlicModel.clearPending p (PlicModel.claimOf p c)) c) = true := by
        have h2 := hspec2.2
        rwa [PlicModel.claimable_clearPending p _ c _ hne2] at h2
      exact PlicModel.bestOf_max p _ hfilterpos _
        (List.mem_filter.mpr ⟨hspec2.1, hclp⟩)

set_option maxRecDepth 100000 in
/-- Claim C5 witness: in the sample PLIC (sources 10 and 12 at priority 5,
source 20 at priority 3, threshold 1) the first claim for context 0 returns
id 10 — the lowest id among the highest-priority pending sources — and the
second claim returns a different id of no higher priority. -/
theorem plic_claim_semantics_witness :
    PlicModel.claimable PlicModel.samplePlic 0
      ((PlicModel.plicClaim PlicModel.samplePlic 0).1) = true ∧
    (PlicModel.plicClaim
      ((PlicModel.plicClaim PlicModel.samplePlic 0).2) 0).1 ≠
      (PlicModel.plicClaim PlicModel.samplePlic 0).1 := by
  have h := plic_claim_semantics PlicModel.samplePlic 0 (by decide)
  exact ⟨h.2.1, h.2.2.2.2.2.2.2.1⟩

/-! ## Helper lemmas and the claim theorem for C10 -/

namespace GuestIo

theorem pollTHRE_ready (start fuel : Nat) (h : 1 ≤ fuel) :
    pollTHRE lsrAlwaysReady start fuel = some (start + 1) := by
  cases fuel with
  | zero => omega
  | succ f =>
    show (if lsrAlwaysReady start &&& UART_LSR_THRE = 0 then _ else _) = _
    rw [show lsrAlwaysReady start &&& UART_LSR_THRE = 32 from by
        simp [lsrAlwaysReady, UART_LSR_THRE],
      if_neg (by decide)]

theorem pollTHRE_stuck (lsr : Nat → Nat)
    (h : ∀ t, lsr t &&& UART_LSR_THRE = 0) :
    ∀ fuel start, pollTHRE lsr start fuel = none := by
  intro fuel
  induction fuel with
  | zero => intro start; rfl
  | succ f ih =>
    intro start
    show (if lsr start &&& UART_LSR_THRE = 0 then _ else _) = _
    rw [if_pos (h start)]
    exact ih (start + 1)

theorem uart_putc_ready (start fuel ch : Nat) (h : 1 ≤ fuel) :
    uart_putc lsrAlwaysReady start fuel ch =
      some (if ch = 10 then (start + 2, [10, 13]) else (start + 1, [ch])) := by
  by_cases hch : ch = 10
  · subst hch
    simp [uart_putc, pollTHRE_ready start fuel h,
      pollTHRE_ready (start + 1) fuel h]
  · simp [uart_putc, pollTHRE_ready start fuel h, hch]

theorem putBytes_ready (fuel : Nat) (h : 1 ≤ fuel) :
    ∀ (s : List Nat) (start : Nat),
      ∃ t, putBytes lsrAlwaysReady start fuel s =
        some (t, expandNewlines s) := by
  intro s
  induction s with
  | nil => intro start; exact ⟨start, rfl⟩
  | cons c rest ih =>
    intro start
    by_cases hc : c = 10
    · rcases ih (start + 2) with ⟨t, ht⟩
      refine ⟨t, ?_⟩
      subst hc
      simp [putBytes, uart_putc_ready start fuel 10 h, ht, expandNewlines]
    · rcases ih (start + 1) with ⟨t, ht⟩
      refine ⟨t, ?_⟩
      simp [putBytes, uart_putc_ready start fuel c h, hc, ht, expandNewlines]

end GuestIo

/-- Claim C10: uart_putc stores a byte at UART offset 0 only after a poll of
LSR observes THRE (0x20) set — with THRE never set it stores nothing — and
emits each newline byte as the pair 10, 13; over a whole text, the UART byte
stream is the text with 13 appended after each 10; PowerOff emits that pair
(from its `uart_putc('\n')`) before storing the 0x5555 magic, which
terminates the run with exit code 0. -/
theorem uart_newline_translation :
    (∀ start fuel ch, 1 ≤ fuel →
      GuestIo.uart_putc GuestIo.lsrAlwaysReady start fuel ch =
        some (if ch = 10 then (start + 2, [10, 13]) else (start + 1, [ch]))) ∧
    (∀ (s : List Nat) (start fuel : Nat), 1 ≤ fuel →
      ∃ t, GuestIo.putBytes GuestIo.lsrAlwaysReady start fuel s =
        some (t, GuestIo.expandNewlines s)) ∧
    (∀ (lsr : Nat → Nat) (start fuel ch : Nat),
      (∀ t, lsr t &&& GuestIo.UART_LSR_THRE = 0) →
      GuestIo.uart_putc lsr start fuel ch = none) ∧
    GuestIo.PowerOffTrace =
      [GuestIo.GuestEvent.uartWrite 10, GuestIo.GuestEvent.uartWrite 13,
        GuestIo.GuestEvent.powerWrite 0x5555] ∧
    GuestIo.powerWriteExit 0x5555 = some 0 := by
  refine ⟨fun start fuel ch h => GuestIo.uart_putc_ready start fuel ch h,
    fun s start fuel h => GuestIo.putBytes_ready fuel h s start, ?_, rfl, rfl⟩
  intro lsr start fuel ch hstuck
  unfold GuestIo.uart_putc
  rw [GuestIo.pollTHRE_stuck lsr hstuck fuel start]

/-- Claim C10 witness: with THRE always reading set, a newline is stored as
the two bytes 10 then 13, and with THRE never set nothing is stored. -/
theorem uart_newline_translation_witness :
    GuestIo.uart_putc GuestIo.lsrAlwaysReady 0 1 10 = some (2, [10, 13]) ∧
    GuestIo.uart_putc (fun _ => 0) 0 5 65 = none := by
  refine ⟨?_, ?_⟩
  · have h := uart_newline_translation.1 0 1 10 (by decide)
    simpa using h
  · exact uart_newline_translation.2.2.1 (fun _ => 0) 0 5 65
      (fun _ => by simp)

/-! ## Helper lemmas and the claim theorem for C8 -/

namespace PrimeGuest

theorem trialLoop_true_iff (n : Nat) :
    ∀ (fuel i : Nat), 1 ≤ i → n + 1 ≤ i + fuel →
      (trialLoop n i fuel = true ↔
        ∀ j, i ≤ j → j * j ≤ n → n % j ≠ 0) := by
  intro fuel
  induction fuel with
  | zero =>
    intro i h1 h2
    constructor
    · intro _ j hij hjj
      have hj1 : j * 1 ≤ j * j := Nat.mul_le_mul_left j (by omega)
      omega
    · intro _
      rfl
  | succ fuel ih =>
    intro i h1 h2
    show (if i * i ≤ n then
        if n % i = 0 then false else trialLoop n (i + 1) fuel
      else true) = true ↔ _
    by_cases hii : i * i ≤ n
    · rw [if_pos hii]
      by_cases hmod : n % i = 0
      · rw [if_pos hmod]
        simp only [Bool.false_eq_true, false_iff, not_forall]
        exact ⟨i, Nat.le_refl i, hii, fun h => h hmod⟩
      · rw [if_neg hmod]
        rw [ih (i + 1) (by omega) (by omega)]
        constructor
        · intro h j hij hjj
          rcases Nat.eq_or_lt_of_le hij with heq | hlt
          · rw [← heq]; exact hmod
          · exact h j (by omega) hjj
        · intro h j hij hjj
          exact h j (by omega) hjj
    · rw [if_neg hii]
      constructor
      · intro _ j hij hjj
        have : i * i ≤ j * j := Nat.mul_le_mul hij hij
        omega
      · intro _
        rfl

theorem is_prime_iff (n : Nat) : is_prime n = 1 ↔ Nat.Prime n := by
  unfold is_prime
  by_cases h1 : n ≤ 1
  · rw [if_pos h1]
    constructor
    · intro h; exact absurd h (by omega)
    · intro hp
      have := hp.two_le
      omega
  · rw [if_neg h1]
    have h2 : 2 ≤ n := by omega
    have hiff := trialLoop_true_iff n (n + 1) 2 (by omega) (by omega)
    by_cases ht : trialLoop n 2 (n + 1) = true
    · rw [if_pos ht]
      have hnodiv := hiff.mp ht
      constructor
      · intro _
        by_contra hnp
        have hmfp := Nat.minFac_prime (show n ≠ 1 by omega)
        have h2f : 2 ≤ n.minFac := hmfp.two_le
        have hsq : n.minFac ^ 2 ≤ n := Nat.minFac_sq_le_self (by omega) hnp
        have hmod : n % n.minFac = 0 :=
          Nat.mod_eq_zero_of_dvd (Nat.minFac_dvd n)
        exact hnodiv n.minFac h2f (by nlinarith) hmod
      · intro _; rfl
    · rw [if_neg ht]
      constructor
      · intro h; exact absurd h (by omega)
      · intro hp
        exfalso
        apply ht
        rw [hiff]
        intro j h2j hjj hmod
        have hdvd : j ∣ n := Nat.dvd_of_mod_eq_zero hmod
        rcases hp.eq_one_or_self_of_dvd j hdvd with hj1 | hjn
        · omega
        · subst hjn
          have : j * 2 ≤ j * j := Nat.mul_le_mul_left j h2
          omega

theorem countPrimesIn_split (s a b : Nat) :
    countPrimesIn s (a + b) = countPrimesIn s a + countPrimesIn (s + a) b := by
  induction b with
  | zero => rfl
  | succ b ih =>
    show countPrimesIn s (a + b) +
        (if is_prime (s + (a + b)) = 1 then 1 else 0) =
      countPrimesIn s a +
        (countPrimesIn (s + a) b + (if is_prime (s + a + b) = 1 then 1 else 0))
    rw [ih, show s + (a + b) = s + a + b from by omega]
    omega

end PrimeGuest

set_option maxRecDepth 1000000 in
set_option maxHeartbeats 4000000 in
theorem primeChunk0 : PrimeGuest.countPrimesIn 0 1000 = 168 := by decide

set_option maxRecDepth 1000000 in
set_option maxHeartbeats 4000000 in
theorem primeChunk1 : PrimeGuest.countPrimesIn 1000 1000 = 135 := by decide

set_option maxRecDepth 1000000 in
set_option maxHeartbeats 4000000 in
theorem primeChunk2 : PrimeGuest.countPrimesIn 2000 1000 = 127 := by decide

set_option maxRecDepth 1000000 in
set_option maxHeartbeats 4000000 in
theorem primeChunk3 : PrimeGuest.countPrimesIn 3000 1000 = 120 := by decide

set_option maxRecDepth 1000000 in
set_option maxHeartbeats 4000000 in
theorem primeChunk4 : PrimeGuest.countPrimesIn 4000 1000 = 119 := by decide

set_option maxRecDepth 1000000 in
set_option maxHeartbeats 4000000 in
theorem primeChunk5 : PrimeGuest.countPrimesIn 5000 1000 = 114 := by decide

set_option maxRecDepth 1000000 in
set_option maxHeartbeats 4000000 in
theorem primeChunk6 : PrimeGuest.countPrimesIn 6000 1000 = 117 := by decide

set_option maxRecDepth 1000000 in
set_option maxHeartbeats 4000000 in
theorem primeChunk7 : PrimeGuest.countPrimesIn 7000 1000 = 107 := by decide

set_option maxRecDepth 1000000 in
set_option maxHeartbeats 4000000 in
theorem primeChunk8 : PrimeGuest.countPrimesIn 8000 1000 = 110 := by decide

set_option maxRecDepth 1000000 in
set_option maxHeartbeats 4000000 in
theorem primeChunk9 : PrimeGuest.countPrimesIn 9000 1000 = 112 := by decide

set_option maxRecDepth 1000000 in
set_option maxHeartbeats 4000000 in
theorem primeChunk10 : PrimeGuest.countPrimesIn 10000 1000 = 106 := by decide

set_option maxRecDepth 1000000 in
set_option maxHeartbeats 4000000 in
theorem primeChunk11 : PrimeGuest.countPrimesIn 11000 1000 = 103 := by decide

set_option maxRecDepth 1000000 in
set_option maxHeartbeats 4000000 in
theorem primeChunk12 : PrimeGuest.countPrimesIn 12000 1000 = 109 := by decide

set_option maxRecDepth 1000000 in
set_option maxHeartbeats 4000000 in
theorem primeChunk13 : PrimeGuest.countPrimesIn 13000 1000 = 105 := by decide

set_option maxRecDepth 1000000 in
set_option maxHeartbeats 4000000 in
theorem primeChunk14 : PrimeGuest.countPrimesIn 14000 1000 = 102 := by decide

set_option maxRecDepth 1000000 in
set_option maxHeartbeats 4000000 in
theorem primeChunk15 : PrimeGuest.countPrimesIn 15000 1000 = 108 := by decide

set_option maxRecDepth 1000000 in
set_option maxHeartbeats 4000000 in
theorem primeChunk16 : PrimeGuest.countPrimesIn 16000 1000 = 98 := by decide

set_option maxRecDepth 1000000 in
set_option maxHeartbeats 4000000 in
theorem primeChunk17 : PrimeGuest.countPrimesIn 17000 1000 = 104 := by decide

set_option maxRecDepth 1000000 in
set_option maxHeartbeats 4000000 in
theorem primeChunk18 : PrimeGuest.countPrimesIn 18000 1000 = 94 := by decide

set_option maxRecDepth 1000000 in
set_option maxHeartbeats 4000000 in
theorem primeChunk19 : PrimeGuest.countPrimesIn 19000 1000 = 104 := by decide

theorem primeCount_eq : PrimeGuest.primeCount = 2262 := by
  show PrimeGuest.countPrimesIn 0 20000 = 2262
  rw [show (20000 : Nat) = 19000 + 1000 from by norm_num,
    PrimeGuest.countPrimesIn_split 0 19000 1000, Nat.zero_add,
    primeChunk19]
  rw [show (19000 : Nat) = 18000 + 1000 from by norm_num,
    PrimeGuest.countPrimesIn_split 0 18000 1000, Nat.zero_add,
    primeChunk18]
  rw [show (18000 : Nat) = 17000 + 1000 from by norm_num,
    PrimeGuest.countPrimesIn_split 0 17000 1000, Nat.zero_add,
    primeChunk17]
  rw [show (17000 : Nat) = 16000 + 1000 from by norm_num,
    PrimeGuest.countPrimesIn_split 0 16000 1000, Nat.zero_add,
    primeChunk16]
  rw [show (16000 : Nat) = 15000 + 1000 from by norm_num,
    PrimeGuest.countPrimesIn_split 0 15000 1000, Nat.zero_add,
    primeChunk15]
  rw [show (15000 : Nat) = 14000 + 1000 from by norm_num,
    PrimeGuest.countPrimesIn_split 0 14000 1000, Nat.zero_add,
    primeChunk14]
  rw [show (14000 : Nat) = 13000 + 1000 from by norm_num,
    PrimeGuest.countPrimesIn_split 0 13000 1000, Nat.zero_add,
    primeChunk13]
  rw [show (13000 : Nat) = 12000 + 1000 from by norm_num,
    PrimeGuest.countPrimesIn_split 0 12000 1000, Nat.zero_add,
    primeChunk12]
  rw [show (12000 : Nat) = 11000 + 1000 from by norm_num,
    PrimeGuest.countPrimesIn_split 0 11000 1000, Nat.zero_add,
    primeChunk11]
  rw [show (11000 : Nat) = 10000 + 1000 from by norm_num,
    PrimeGuest.countPrimesIn_split 0 10000 1000, Nat.zero_add,
    primeChunk10]
  rw [show (10000 : Nat) = 9000 + 1000 from by norm_num,
    PrimeGuest.countPrimesIn_split 0 9000 1000, Nat.zero_add,
    primeChunk9]
  rw [show (9000 : Nat) = 8000 + 1000 from by norm_num,
    PrimeGuest.countPrimesIn_split 0 8000 1000, Nat.zero_add,
    primeChunk8]
  rw [show (8000 : Nat) = 7000 + 1000 from by norm_num,
    PrimeGuest.countPrimesIn_split 0 7000 1000, Nat.zero_add,
    primeChunk7]
  rw [show (7000 : Nat) = 6000 + 1000 from by norm_num,
    PrimeGuest.countPrimesIn_split 0 6000 1000, Nat.zero_add,
    primeChunk6]
  rw [show (6000 : Nat) = 5000 + 1000 from by norm_num,
    PrimeGuest.countPrimesIn_split 0 5000 1000, Nat.zero_add,
    primeChunk5]
  rw [show (5000 : Nat) = 4000 + 1000 from by norm_num,
    PrimeGuest.countPrimesIn_split 0 4000 1000, Nat.zero_add,
    primeChunk4]
  rw [show (4000 : Nat) = 3000 + 1000 from by norm_num,
    PrimeGuest.countPrimesIn_split 0 3000 1000, Nat.zero_add,
    primeChunk3]
  rw [show (3000 : Nat) = 2000 + 1000 from by norm_num,
    PrimeGuest.countPrimesIn_split 0 2000 1000, Nat.zero_add,
    primeChunk2]
  rw [show (2000 : Nat) = 1000 + 1000 from by norm_num,
    PrimeGuest.countPrimesIn_split 0 1000 1000, Nat.zero_add,
    primeChunk1]
  rw [primeChunk0]

/-- Claim C8: is_prime as coded (trial division up to the square root)
returns 1 exactly for the primes — in particular on [2, 20000) — the main
loop's count of primes below 20000 is 2262, print_dec renders it as the
decimal text 2262 on the UART, and the guest's closing write of 0x5555 to
the power device exits the run with code 0. -/
theorem prime_guest_end_to_end :
    (∀ n : Nat, PrimeGuest.is_prime n = 1 ↔ Nat.Prime n) ∧
    PrimeGuest.primeCount = 2262 ∧
    GuestIo.print_dec 2262 0 32 = [50, 50, 54, 50] ∧
    GuestIo.powerWriteExit 0x5555 = some 0 :=
  ⟨PrimeGuest.is_prime_iff, primeCount_eq, rfl, rfl⟩

/-! ## Helper lemmas and the claim theorem for C9 -/

namespace Matmul

theorem wrap32_eq (x : Int) : wrap32 x = toSigned ((x % 4294967296).toNat) := by
  unfold wrap32 toSigned
  have h0 : 0 ≤ x % 4294967296 := Int.emod_nonneg _ (by norm_num)
  have h1 : x % 4294967296 < 4294967296 := Int.emod_lt_of_pos _ (by norm_num)
  split_ifs with h <;> omega

theorem toSigned_emod (v : Nat) (h : v < M32) :
    toSigned v % 4294967296 = (v : Int) % 4294967296 := by
  unfold toSigned M32 at *
  split_ifs with hv <;> omega

theorem toU64_toSigned (v : Nat) (h : v < M32) :
    toU64 (toSigned v) = sext v := by
  unfold toU64 toSigned sext M32 M64 at *
  split_ifs with hv <;> omega

theorem prod_bridge (i k j : Nat) (hj : j ≤ k + M32) :
    ((((i : Int) + k) * ((k : Int) - j)) % 4294967296).toNat =
      An i k * Bn k j % M32 := by
  unfold An Bn
  have hy : ((k + M32 - j : Nat) : Int) = (k : Int) + 4294967296 - j := by
    unfold M32 at *
    omega
  have h1 : (((((i + k) % M32) * ((k + M32 - j) % M32)) % M32 : Nat) : Int) =
      ((((i : Int) + k) % 4294967296) * (((k : Int) + 4294967296 - j) %
        4294967296)) % 4294967296 := by
    push_cast [M32]
    rw [← hy]
    push_cast [M32]
    ring_nf
  have h2 : ((((i : Int) + k) % 4294967296) * (((k : Int) + 4294967296 - j) %
      4294967296)) % 4294967296 =
      (((i : Int) + k) * ((k : Int) + 4294967296 - j)) % 4294967296 := by
    conv_rhs => rw [Int.mul_emod]
  have h3 : (((i : Int) + k) * ((k : Int) + 4294967296 - j)) % 4294967296 =
      (((i : Int) + k) * ((k : Int) - j)) % 4294967296 := by
    have hsplit : ((i : Int) + k) * ((k : Int) + 4294967296 - j) =
        ((i : Int) + k) * ((k : Int) - j) + ((i : Int) + k) * 4294967296 := by
      ring
    rw [hsplit, Int.add_mul_emod_self]
  have h4 : 0 ≤ (((i : Int) + k) * ((k : Int) - j)) % 4294967296 :=
    Int.emod_nonneg _ (by norm_num)
  omega

theorem centryAuxN_lt (i j : Nat) (k : Nat) : centryAuxN i j k < M32 := by
  cases k with
  | zero =>
    unfold centryAuxN M32
    omega
  | succ k =>
    show (centryAuxN i j k + An i k * Bn k j) % M32 < M32
    have : M32 ≠ 0 := by unfold M32; omega
    exact Nat.mod_lt _ (by omega)

theorem centryAux_bridge (i j : Nat) (hj : j ≤ M32) (k : Nat) :
    centryAux i j k = toSigned (centryAuxN i j k) := by
  induction k with
  | zero =>
    show (0 : Int) = toSigned 0
    unfold toSigned
    norm_num
  | succ k ih =>
    show wrap32 (centryAux i j k + wrap32 (A i k * B k j)) =
      toSigned ((centryAuxN i j k + An i k * Bn k j) % M32)
    rw [ih]
    unfold A B
    rw [wrap32_eq (((i : Int) + k) * ((k : Int) - j))]
    rw [prod_bridge i k j (by omega)]
    rw [wrap32_eq]
    congr 1
    have hc := centryAuxN_lt i j k
    have hm : An i k * Bn k j % M32 < M32 := by
      have : M32 ≠ 0 := by unfold M32; omega
      exact Nat.mod_lt _ (by omega)
    have hadd : (toSigned (centryAuxN i j k) + toSigned (An i k * Bn k j % M32))
        % 4294967296 = ((centryAuxN i j k + An i k * Bn k j % M32 : Nat) : Int)
        % 4294967296 := by
      rw [Int.add_emod, toSigned_emod _ hc, toSigned_emod _ hm, ← Int.add_emod]
      push_cast
      ring_nf
    rw [hadd]
    have hback : (((centryAuxN i j k + An i k * Bn k j % M32 : Nat) : Int) %
        4294967296).toNat = (centryAuxN i j k + An i k * Bn k j % M32) % M32 := by
      unfold M32
      omega
    rw [hback]
    generalize An i k * Bn k j = q
    unfold M32
    omega

theorem centry_bridge (i j : Nat) (hj : j ≤ M32) :
    centry i j = toSigned (centryN i j) :=
  centryAux_bridge i j hj 64

theorem rowSum_bridge (i : Nat) : ∀ j, j ≤ M32 → rowSum i j = rowSumN i j := by
  intro j
  induction j with
  | zero => intro _; rfl
  | succ j ih =>
    intro hj
    show (rowSum i j + toU64 (centry i j)) % M64 =
      (rowSumN i j + sext (centryN i j)) % M64
    rw [ih (by omega), centry_bridge i j (by omega),
      toU64_toSigned (centryN i j) (centryAuxN_lt i j 64)]

theorem checksum_bridge : checksum = checksumN := by
  show checksumAux 64 = checksumAuxN 64
  have h : ∀ n, n ≤ 64 → checksumAux n = checksumAuxN n := by
    intro n
    induction n with
    | zero => intro _; rfl
    | succ n ih =>
      intro hn
      show (checksumAux n + rowSum n 64) % M64 =
        (checksumAuxN n + rowSumN n 64) % M64
      rw [ih (by omega), rowSum_bridge n 64 (by unfold M32; omega)]
  exact h 64 (by omega)

theorem rowSum_plain (i : Nat) : ∀ j, rowSum i j = plainRow i j % M64 := by
  intro j
  induction j with
  | zero =>
    show (0 : Nat) = 0 % M64
    simp
  | succ j ih =>
    show (rowSum i j + toU64 (centry i j)) % M64 =
      (plainRow i j + toU64 (centry i j)) % M64
    rw [ih]
    generalize plainRow i j = p
    generalize toU64 (centry i j) = t
    unfold M64
    omega

theorem checksumAux_plain : ∀ n, checksumAux n = plainSum n % M64 := by
  intro n
  induction n with
  | zero =>
    show (0 : Nat) = 0 % M64
    simp
  | succ n ih =>
    show (checksumAux n + rowSum n 64) % M64 =
      (plainSum n + plainRow n 64) % M64
    rw [ih, rowSum_plain n 64]
    generalize plainSum n = p
    generalize plainRow n 64 = r
    unfold M64
    omega

end Matmul

set_option maxRecDepth 100000 in
set_option maxHeartbeats 1000000 in
theorem matmulRow0 : Matmul.rowSumN 0 64 = 1397760 := by decide

set_option maxRecDepth 100000 in
set_option maxHeartbeats 1000000 in
theorem matmulRow1 : Matmul.rowSumN 1 64 = 1397760 := by decide

set_option maxRecDepth 100000 in
set_option maxHeartbeats 1000000 in
theorem matmulRow2 : Matmul.rowSumN 2 64 = 1397760 := by decide

set_option maxRecDepth 100000 in
set_option maxHeartbeats 1000000 in
theorem matmulRow3 : Matmul.rowSumN 3 64 = 1397760 := by decide

set_option maxRecDepth 100000 in
set_option maxHeartbeats 1000000 in
theorem matmulRow4 : Matmul.rowSumN 4 64 = 1397760 := by decide

set_option maxRecDepth 100000 in
set_option maxHeartbeats 1000000 in
theorem matmulRow5 : Matmul.rowSumN 5 64 = 1397760 := by decide

set_option maxRecDepth 100000 in
set_option maxHeartbeats 1000000 in
theorem matmulRow6 : Matmul.rowSumN 6 64 = 1397760 := by decide

set_option maxRecDepth 100000 in
set_option maxHeartbeats 1000000 in
theorem matmulRow7 : Matmul.rowSumN 7 64 = 1397760 := by decide

set_option maxRecDepth 100000 in
set_option maxHeartbeats 1000000 in
theorem matmulRow8 : Matmul.rowSumN 8 64 = 1397760 := by decide

set_option maxRecDepth 100000 in
set_option maxHeartbeats 1000000 in
theorem matmulRow9 : Matmul.rowSumN 9 64 = 1397760 := by decide

set_option maxRecDepth 100000 in
set_option maxHeartbeats 1000000 in
theorem matmulRow10 : Matmul.rowSumN 10 64 = 1397760 := by decide

set_option maxRecDepth 100000 in
set_option maxHeartbeats 1000000 in
theorem matmulRow11 : Matmul.rowSumN 11 64 = 1397760 := by decide

set_option maxRecDepth 100000 in
set_option maxHeartbeats 1000000 in
theorem matmulRow12 : Matmul.rowSumN 12 64 = 1397760 := by decide

set_option maxRecDepth 100000 in
set_option maxHeartbeats 1000000 in
theorem matmulRow13 : Matmul.rowSumN 13 64 = 1397760 := by decide

set_option maxRecDepth 100000 in
set_option maxHeartbeats 1000000 in
theorem matmulRow14 : Matmul.rowSumN 14 64 = 1397760 := by decide

set_option maxRecDepth 100000 in
set_option maxHeartbeats 1000000 in
theorem matmulRow15 : Matmul.rowSumN 15 64 = 1397760 := by decide

set_option maxRecDepth 100000 in
set_option maxHeartbeats 1000000 in
theorem matmulRow16 : Matmul.rowSumN 16 64 = 1397760 := by decide

set_option maxRecDepth 100000 in
set_option maxHeartbeats 1000000 in
theorem matmulRow17 : Matmul.rowSumN 17 64 = 1397760 := by decide

set_option maxRecDepth 100000 in
set_option maxHeartbeats 1000000 in
theorem matmulRow18 : Matmul.rowSumN 18 64 = 1397760 := by decide

set_option maxRecDepth 100000 in
set_option maxHeartbeats 1000000 in
theorem matmulRow19 : Matmul.rowSumN 19 64 = 1397760 := by decide

set_option maxRecDepth 100000 in
set_option maxHeartbeats 1000000 in
theorem matmulRow20 : Matmul.rowSumN 20 64 = 1397760 := by decide

set_option maxRecDepth 100000 in
set_option maxHeartbeats 1000000 in
theorem matmulRow21 : Matmul.rowSumN 21 64 = 1397760 := by decide

set_option maxRecDepth 100000 in
set_option maxHeartbeats 1000000 in
theorem matmulRow22 : Matmul.rowSumN 22 64 = 1397760 := by decide

set_option maxRecDepth 100000 in
set_option maxHeartbeats 1000000 in
theorem matmulRow23 : Matmul.rowSumN 23 64 = 1397760 := by decide

set_option maxRecDepth 100000 in
set_option maxHeartbeats 1000000 in
theorem matmulRow24 : Matmul.rowSumN 24 64 = 1397760 := by decide

set_option maxRecDepth 100000 in
set_option maxHeartbeats 1000000 in
theorem matmulRow25 : Matmul.rowSumN 25 64 = 1397760 := by decide

set_option maxRecDepth 100000 in
set_option maxHeartbeats 1000000 in
theorem matmulRow26 : Matmul.rowSumN 26 64 = 1397760 := by decide

set_option maxRecDepth 100000 in
set_option maxHeartbeats 1000000 in
theorem matmulRow27 : Matmul.rowSumN 27 64 = 1397760 := by decide

set_option maxRecDepth 100000 in
set_option maxHeartbeats 1000000 in
theorem matmulRow28 : Matmul.rowSumN 28 64 = 1397760 := by decide

set_option maxRecDepth 100000 in
set_option maxHeartbeats 1000000 in
theorem matmulRow29 : Matmul.rowSumN 29 64 = 1397760 := by decide

set_option maxRecDepth 100000 in
set_option maxHeartbeats 1000000 in
theorem matmulRow30 : Matmul.rowSumN 30 64 = 1397760 := by decide

set_option maxRecDepth 100000 in
set_option maxHeartbeats 1000000 in
theorem matmulRow31 : Matmul.rowSumN 31 64 = 1397760 := by decide

set_option maxRecDepth 100000 in
set_option maxHeartbeats 1000000 in
theorem matmulRow32 : Matmul.rowSumN 32 64 = 1397760 := by decide

set_option maxRecDepth 100000 in
set_option maxHeartbeats 1000000 in
theorem matmulRow33 : Matmul.rowSumN 33 64 = 1397760 := by decide

set_option maxRecDepth 100000 in
set_option maxHeartbeats 1000000 in
theorem matmulRow34 : Matmul.rowSumN 34 64 = 1397760 := by decide

set_option maxRecDepth 100000 in
set_option maxHeartbeats 1000000 in
theorem matmulRow35 : Matmul.rowSumN 35 64 = 1397760 := by decide

set_option maxRecDepth 100000 in
set_option maxHeartbeats 1000000 in
theorem matmulRow36 : Matmul.rowSumN 36 64 = 1397760 := by decide

set_option maxRecDepth 100000 in
set_option maxHeartbeats 1000000 in
theorem matmulRow37 : Matmul.rowSumN 37 64 = 1397760 := by decide

set_option maxRecDepth 100000 in
set_option maxHeartbeats 1000000 in
theorem matmulRow38 : Matmul.rowSumN 38 64 = 1397760 := by decide

set_option maxRecDepth 100000 in
set_option maxHeartbeats 1000000 in
theorem matmulRow39 : Matmul.rowSumN 39 64 = 1397760 := by decide

set_option maxRecDepth 100000 in
set_option maxHeartbeats 1000000 in
theorem matmulRow40 : Matmul.rowSumN 40 64 = 1397760 := by decide

set_option maxRecDepth 100000 in
set_option maxHeartbeats 1000000 in
theorem matmulRow41 : Matmul.rowSumN 41 64 = 1397760 := by decide

set_option maxRecDepth 100000 in
set_option maxHeartbeats 1000000 in
theorem matmulRow42 : Matmul.rowSumN 42 64 = 1397760 := by decide

set_option maxRecDepth 100000 in
set_option maxHeartbeats 1000000 in
theorem matmulRow43 : Matmul.rowSumN 43 64 = 1397760 := by decide

set_option maxRecDepth 100000 in
set_option maxHeartbeats 1000000 in
theorem matmulRow44 : Matmul.rowSumN 44 64 = 1397760 := by decide

set_option maxRecDepth 100000 in
set_option maxHeartbeats 1000000 in
theorem matmulRow45 : Matmul.rowSumN 45 64 = 1397760 := by decide

set_option maxRecDepth 100000 in
set_option maxHeartbeats 1000000 in
theorem matmulRow46 : Matmul.rowSumN 46 64 = 1397760 := by decide

set_option maxRecDepth 100000 in
set_option maxHeartbeats 1000000 in
theorem matmulRow47 : Matmul.rowSumN 47 64 = 1397760 := by decide

set_option maxRecDepth 100000 in
set_option maxHeartbeats 1000000 in
theorem matmulRow48 : Matmul.rowSumN 48 64 = 1397760 := by decide

set_option maxRecDepth 100000 in
set_option maxHeartbeats 1000000 in
theorem matmulRow49 : Matmul.rowSumN 49 64 = 1397760 := by decide

set_option maxRecDepth 100000 in
set_option maxHeartbeats 1000000 in
theorem matmulRow50 : Matmul.rowSumN 50 64 = 1397760 := by decide

set_option maxRecDepth 100000 in
set_option maxHeartbeats 1000000 in
theorem matmulRow51 : Matmul.rowSumN 51 64 = 1397760 := by decide

set_option maxRecDepth 100000 in
set_option maxHeartbeats 1000000 in
theorem matmulRow52 : Matmul.rowSumN 52 64 = 1397760 := by decide

set_option maxRecDepth 100000 in
set_option maxHeartbeats 1000000 in
theorem matmulRow53 : Matmul.rowSumN 53 64 = 1397760 := by decide

set_option maxRecDepth 100000 in
set_option maxHeartbeats 1000000 in
theorem matmulRow54 : Matmul.rowSumN 54 64 = 1397760 := by decide

set_option maxRecDepth 100000 in
set_option maxHeartbeats 1000000 in
theorem matmulRow55 : Matmul.rowSumN 55 64 = 1397760 := by decide

set_option maxRecDepth 100000 in
set_option maxHeartbeats 1000000 in
theorem matmulRow56 : Matmul.rowSumN 56 64 = 1397760 := by decide

set_option maxRecDepth 100000 in
set_option maxHeartbeats 1000000 in
theorem matmulRow57 : Matmul.rowSumN 57 64 = 1397760 := by decide

set_option maxRecDepth 100000 in
set_option maxHeartbeats 1000000 in
theorem matmulRow58 : Matmul.rowSumN 58 64 = 1397760 := by decide

set_option maxRecDepth 100000 in
set_option maxHeartbeats 1000000 in
theorem matmulRow59 : Matmul.rowSumN 59 64 = 1397760 := by decide

set_option maxRecDepth 100000 in
set_option maxHeartbeats 1000000 in
theorem matmulRow60 : Matmul.rowSumN 60 64 = 1397760 := by decide

set_option maxRecDepth 100000 in
set_option maxHeartbeats 1000000 in
theorem matmulRow61 : Matmul.rowSumN 61 64 = 1397760 := by decide

set_option maxRecDepth 100000 in
set_option maxHeartbeats 1000000 in
theorem matmulRow62 : Matmul.rowSumN 62 64 = 1397760 := by decide

set_option maxRecDepth 100000 in
set_option maxHeartbeats 1000000 in
theorem matmulRow63 : Matmul.rowSumN 63 64 = 1397760 := by decide

theorem matmul_checksumAuxN_succ (i : Nat) :
    Matmul.checksumAuxN (i + 1) =
      (Matmul.checksumAuxN i + Matmul.rowSumN i 64) % Matmul.M64 := rfl

theorem matmul_checksumN_eq : Matmul.checksumN = 89456640 := by
  show Matmul.checksumAuxN 64 = 89456640
  have h0 : Matmul.checksumAuxN 0 = 0 := rfl
  have h1 : Matmul.checksumAuxN 1 = 1397760 := by
    rw [show (1 : Nat) = 0 + 1 from by norm_num,
      matmul_checksumAuxN_succ 0, h0, matmulRow0,
      show (0 + 1397760) % Matmul.M64 = 1397760 from by
        norm_num [Matmul.M64]]
  have h2 : Matmul.checksumAuxN 2 = 2795520 := by
    rw [show (2 : Nat) = 1 + 1 from by norm_num,
      matmul_checksumAuxN_succ 1, h1, matmulRow1,
      show (1397760 + 1397760) % Matmul.M64 = 2795520 from by
        norm_num [Matmul.M64]]
  have h3 : Matmul.checksumAuxN 3 = 4193280 := by
    rw [show (3 : Nat) = 2 + 1 from by norm_num,
      matmul_checksumAuxN_succ 2, h2, matmulRow2,
      show (2795520 + 1397760) % Matmul.M64 = 4193280 from by
        norm_num [Matmul.M64]]
  have h4 : Matmul.checksumAuxN 4 = 5591040 := by
    rw [show (4 : Nat) = 3 + 1 from by norm_num,
      matmul_checksumAuxN_succ 3, h3, matmulRow3,
      show (4193280 + 1397760) % Matmul.M64 = 5591040 from by
        norm_num [Matmul.M64]]
  have h5 : Matmul.checksumAuxN 5 = 6988800 := by
    rw [show (5 : Nat) = 4 + 1 from by norm_num,
      matmul_checksumAuxN_succ 4, h4, matmulRow4,
      show (5591040 + 1397760) % Matmul.M64 = 6988800 from by
        norm_num [Matmul.M64]]
  have h6 : Matmul.checksumAuxN 6 = 8386560 := by
    rw [show (6 : Nat) = 5 + 1 from by norm_num,
      matmul_checksumAuxN_succ 5, h5, matmulRow5,
      show (6988800 + 1397760) % Matmul.M64 = 8386560 from by
        norm_num [Matmul.M64]]
  have h7 : Matmul.checksumAuxN 7 = 9784320 := by
    rw [show (7 : Nat) = 6 + 1 from by norm_num,
      matmul_checksumAuxN_succ 6, h6, matmulRow6,
      show (8386560 + 1397760) % Matmul.M64 = 9784320 from by
        norm_num [Matmul.M64]]
  have h8 : Matmul.checksumAuxN 8 = 11182080 := by
    rw [show (8 : Nat) = 7 + 1 from by norm_num,
      matmul_checksumAuxN_succ 7, h7, matmulRow7,
      show (9784320 + 1397760) % Matmul.M64 = 11182080 from by
        norm_num [Matmul.M64]]
  have h9 : Matmul.checksumAuxN 9 = 12579840 := by
    rw [show (9 : Nat) = 8 + 1 from by norm_num,
      matmul_checksumAuxN_succ 8, h8, matmulRow8,
      show (11182080 + 1397760) % Matmul.M64 = 12579840 from by
        norm_num [Matmul.M64]]
  have h10 : Matmul.checksumAuxN 10 = 13977600 := by
    rw [show (10 : Nat) = 9 + 1 from by norm_num,
      matmul_checksumAuxN_succ 9, h9, matmulRow9,
      show (12579840 + 1397760) % Matmul.M64 = 13977600 from by
        norm_num [Matmul.M64]]
  have h11 : Matmul.checksumAuxN 11 = 15375360 := by
    rw [show (11 : Nat) = 10 + 1 from by norm_num,
      matmul_checksumAuxN_succ 10, h10, matmulRow10,
      show (13977600 + 1397760) % Matmul.M64 = 15375360 from by
        norm_num [Matmul.M64]]
  have h12 : Matmul.checksumAuxN 12 = 16773120 := by
    rw [show (12 : Nat) = 11 + 1 from by norm_num,
      matmul_checksumAuxN_succ 11, h11, matmulRow11,
      show (15375360 + 1397760) % Matmul.M64 = 16773120 from by
        norm_num [Matmul.M64]]
  have h13 : Matmul.checksumAuxN 13 = 18170880 := by
    rw [show (13 : Nat) = 12 + 1 from by norm_num,
      matmul_checksumAuxN_succ 12, h12, matmulRow12,
      show (16773120 + 1397760) % Matmul.M64 = 18170880 from by
        norm_num [Matmul.M64]]
  have h14 : Matmul.checksumAuxN 14 = 19568640 := by
    rw [show (14 : Nat) = 13 + 1 from by norm_num,
      matmul_checksumAuxN_succ 13, h13, matmulRow13,
      show (18170880 + 1397760) % Matmul.M64 = 19568640 from by
        norm_num [Matmul.M64]]
  have h15 : Matmul.checksumAuxN 15 = 20966400 := by
    rw [show (15 : Nat) = 14 + 1 from by norm_num,
      matmul_checksumAuxN_succ 14, h14, matmulRow14,
      show (19568640 + 1397760) % Matmul.M64 = 20966400 from by
        norm_num [Matmul.M64]]
  have h16 : Matmul.checksumAuxN 16 = 22364160 := by
    rw [show (16 : Nat) = 15 + 1 from by norm_num,
      matmul_checksumAuxN_succ 15, h15, matmulRow15,
      show (20966400 + 1397760) % Matmul.M64 = 22364160 from by
        norm_num [Matmul.M64]]
  have h17 : Matmul.checksumAuxN 17 = 23761920 := by
    rw [show (17 : Nat) = 16 + 1 from by norm_num,
      matmul_checksumAuxN_succ 16, h16, matmulRow16,
      show (22364160 + 1397760) % Matmul.M64 = 23761920 from by
        norm_num [Matmul.M64]]
  have h18 : Matmul.checksumAuxN 18 = 25159680 := by
    rw [show (18 : Nat) = 17 + 1 from by norm_num,
      matmul_checksumAuxN_succ 17, h17, matmulRow17,
      show (23761920 + 1397760) % Matmul.M64 = 25159680 from by
        norm_num [Matmul.M64]]
  have h19 : Matmul.checksumAuxN 19 = 26557440 := by
    rw [show (19 : Nat) = 18 + 1 from by norm_num,
      matmul_checksumAuxN_succ 18, h18, matmulRow18,
      show (25159680 + 1397760) % Matmul.M64 = 26557440 from by
        norm_num [Matmul.M64]]
  have h20 : Matmul.checksumAuxN 20 = 27955200 := by
    rw [show (20 : Nat) = 19 + 1 from by norm_num,
      matmul_checksumAuxN_succ 19, h19, matmulRow19,
      show (26557440 + 1397760) % Matmul.M64 = 27955200 from by
        norm_num [Matmul.M64]]
  have h21 : Matmul.checksumAuxN 21 = 29352960 := by
    rw [show (21 : Nat) = 20 + 1 from by norm_num,
      matmul_checksumAuxN_succ 20, h20, matmulRow20,
      show (27955200 + 1397760) % Matmul.M64 = 29352960 from by
        norm_num [Matmul.M64]]
  have h22 : Matmul.checksumAuxN 22 = 30750720 := by
    rw [show (22 : Nat) = 21 + 1 from by norm_num,
      matmul_checksumAuxN_succ 21, h21, matmulRow21,
      show (29352960 + 1397760) % Matmul.M64 = 30750720 from by
        norm_num [Matmul.M64]]
  have h23 : Matmul.checksumAuxN 23 = 32148480 := by
    rw [show (23 : Nat) = 22 + 1 from by norm_num,
      matmul_checksumAuxN_succ 22, h22, matmulRow22,
      show (30750720 + 1397760) % Matmul.M64 = 32148480 from by
        norm_num [Matmul.M64]]
  have h24 : Matmul.checksumAuxN 24 = 33546240 := by
    rw [show (24 : Nat) = 23 + 1 from by norm_num,
      matmul_checksumAuxN_succ 23, h23, matmulRow23,
      show (32148480 + 1397760) % Matmul.M64 = 33546240 from by
        norm_num [Matmul.M64]]
  have h25 : Matmul.checksumAuxN 25 = 34944000 := by
    rw [show (25 : Nat) = 24 + 1 from by norm_num,
      matmul_checksumAuxN_succ 24, h24, matmulRow24,
      show (33546240 + 1397760) % Matmul.M64 = 34944000 from by
        norm_num [Matmul.M64]]
  have h26 : Matmul.checksumAuxN 26 = 36341760 := by
    rw [show (26 : Nat) = 25 + 1 from by norm_num,
      matmul_checksumAuxN_succ 25, h25, matmulRow25,
      show (34944000 + 1397760) % Matmul.M64 = 36341760 from by
        norm_num [Matmul.M64]]
  have h27 : Matmul.checksumAuxN 27 = 37739520 := by
    rw [show (27 : Nat) = 26 + 1 from by norm_num,
      matmul_checksumAuxN_succ 26, h26, matmulRow26,
      show (36341760 + 1397760) % Matmul.M64 = 37739520 from by
        norm_num [Matmul.M64]]
  have h28 : Matmul.checksumAuxN 28 = 39137280 := by
    rw [show (28 : Nat) = 27 + 1 from by norm_num,
      matmul_checksumAuxN_succ 27, h27, matmulRow27,
      show (37739520 + 1397760) % Matmul.M64 = 39137280 from by
        norm_num [Matmul.M64]]
  have h29 : Matmul.checksumAuxN 29 = 40535040 := by
    rw [show (29 : Nat) = 28 + 1 from by norm_num,
      matmul_checksumAuxN_succ 28, h28, matmulRow28,
      show (39137280 + 1397760) % Matmul.M64 = 40535040 from by
        norm_num [Matmul.M64]]
  have h30 : Matmul.checksumAuxN 30 = 41932800 := by
    rw [show (30 : Nat) = 29 + 1 from by norm_num,
      matmul_checksumAuxN_succ 29, h29, matmulRow29,
      show (40535040 + 1397760) % Matmul.M64 = 41932800 from by
        norm_num [Matmul.M64]]
  have h31 : Matmul.checksumAuxN 31 = 43330560 := by
    rw [show (31 : Nat) = 30 + 1 from by norm_num,
      matmul_checksumAuxN_succ 30, h30, matmulRow30,
      show (41932800 + 1397760) % Matmul.M64 = 43330560 from by
        norm_num [Matmul.M64]]
  have h32 : Matmul.checksumAuxN 32 = 44728320 := by
    rw [show (32 : Nat) = 31 + 1 from by norm_num,
      matmul_checksumAuxN_succ 31, h31, matmulRow31,
      show (43330560 + 1397760) % Matmul.M64 = 44728320 from by
        norm_num [Matmul.M64]]
  have h33 : Matmul.checksumAuxN 33 = 46126080 := by
    rw [show (33 : Nat) = 32 + 1 from by norm_num,
      matmul_checksumAuxN_succ 32, h32, matmulRow32,
      show (44728320 + 1397760) % Matmul.M64 = 46126080 from by
        norm_num [Matmul.M64]]
  have h34 : Matmul.checksumAuxN 34 = 47523840 := by
    rw [show (34 : Nat) = 33 + 1 from by norm_num,
      matmul_checksumAuxN_succ 33, h33, matmulRow33,
      show (46126080 + 1397760) % Matmul.M64 = 47523840 from by
        norm_num [Matmul.M64]]
  have h35 : Matmul.checksumAuxN 35 = 48921600 := by
    rw [show (35 : Nat) = 34 + 1 from by norm_num,
      matmul_checksumAuxN_succ 34, h34, matmulRow34,
      show (47523840 + 1397760) % Matmul.M64 = 48921600 from by
        norm_num [Matmul.M64]]
  have h36 : Matmul.checksumAuxN 36 = 50319360 := by
    rw [show (36 : Nat) = 35 + 1 from by norm_num,
      matmul_checksumAuxN_succ 35, h35, matmulRow35,
      show (48921600 + 1397760) % Matmul.M64 = 50319360 from by
        norm_num [Matmul.M64]]
  have h37 : Matmul.checksumAuxN 37 = 51717120 := by
    rw [show (37 : Nat) = 36 + 1 from by norm_num,
      matmul_checksumAuxN_succ 36, h36, matmulRow36,
      show (50319360 + 1397760) % Matmul.M64 = 51717120 from by
        norm_num [Matmul.M64]]
  have h38 : Matmul.checksumAuxN 38 = 53114880 := by
    rw [show (38 : Nat) = 37 + 1 from by norm_num,
      matmul_checksumAuxN_succ 37, h37, matmulRow37,
      show (51717120 + 1397760) % Matmul.M64 = 53114880 from by
        norm_num [Matmul.M64]]
  have h39 : Matmul.checksumAuxN 39 = 54512640 := by
    rw [show (39 : Nat) = 38 + 1 from by norm_num,
      matmul_checksumAuxN_succ 38, h38, matmulRow38,
      show (53114880 + 1397760) % Matmul.M64 = 54512640 from by
        norm_num [Matmul.M64]]
  have h40 : Matmul.checksumAuxN 40 = 55910400 := by
    rw [show (40 : Nat) = 39 + 1 from by norm_num,
      matmul_checksumAuxN_succ 39, h39, matmulRow39,
      show (54512640 + 1397760) % Matmul.M64 = 55910400 from by
        norm_num [Matmul.M64]]
  have h41 : Matmul.checksumAuxN 41 = 57308160 := by
    rw [show (41 : Nat) = 40 + 1 from by norm_num,
      matmul_checksumAuxN_succ 40, h40, matmulRow40,
      show (55910400 + 1397760) % Matmul.M64 = 57308160 from by
        norm_num [Matmul.M64]]
  have h42 : Matmul.checksumAuxN 42 = 58705920 := by
    rw [show (42 : Nat) = 41 + 1 from by norm_num,
      matmul_checksumAuxN_succ 41, h41, matmulRow41,
      show (57308160 + 1397760) % Matmul.M64 = 58705920 from by
        norm_num [Matmul.M64]]
  have h43 : Matmul.checksumAuxN 43 = 60103680 := by
    rw [show (43 : Nat) = 42 + 1 from by norm_num,
      matmul_checksumAuxN_succ 42, h42, matmulRow42,
      show (58705920 + 1397760) % Matmul.M64 = 60103680 from by
        norm_num [Matmul.M64]]
  have h44 : Matmul.checksumAuxN 44 = 61501440 := by
    rw [show (44 : Nat) = 43 + 1 from by norm_num,
      matmul_checksumAuxN_succ 43, h43, matmulRow43,
      show (60103680 + 1397760) % Matmul.M64 = 61501440 from by
        norm_num [Matmul.M64]]
  have h45 : Matmul.checksumAuxN 45 = 62899200 := by
    rw [show (45 : Nat) = 44 + 1 from by norm_num,
      matmul_checksumAuxN_succ 44, h44, matmulRow44,
      show (61501440 + 1397760) % Matmul.M64 = 62899200 from by
        norm_num [Matmul.M64]]
  have h46 : Matmul.checksumAuxN 46 = 64296960 := by
    rw [show (46 : Nat) = 45 + 1 from by norm_num,
      matmul_checksumAuxN_succ 45, h45, matmulRow45,
      show (62899200 + 1397760) % Matmul.M64 = 64296960 from by
        norm_num [Matmul.M64]]
  have h47 : Matmul.checksumAuxN 47 = 65694720 := by
    rw [show (47 : Nat) = 46 + 1 from by norm_num,
      matmul_checksumAuxN_succ 46, h46, matmulRow46,
      show (64296960 + 1397760) % Matmul.M64 = 65694720 from by
        norm_num [Matmul.M64]]
  have h48 : Matmul.checksumAuxN 48 = 67092480 := by
    rw [show (48 : Nat) = 47 + 1 from by norm_num,
      matmul_checksumAuxN_succ 47, h47, matmulRow47,
      show (65694720 + 1397760) % Matmul.M64 = 67092480 from by
        norm_num [Matmul.M64]]
  have h49 : Matmul.checksumAuxN 49 = 68490240 := by
    rw [show (49 : Nat) = 48 + 1 from by norm_num,
      matmul_checksumAuxN_succ 48, h48, matmulRow48,
      show (67092480 + 1397760) % Matmul.M64 = 68490240 from by
        norm_num [Matmul.M64]]
  have h50 : Matmul.checksumAuxN 50 = 69888000 := by
    rw [show (50 : Nat) = 49 + 1 from by norm_num,
      matmul_checksumAuxN_succ 49, h49, matmulRow49,
      show (68490240 + 1397760) % Matmul.M64 = 69888000 from by
        norm_num [Matmul.M64]]
  have h51 : Matmul.checksumAuxN 51 = 71285760 := by
    rw [show (51 : Nat) = 50 + 1 from by norm_num,
      matmul_checksumAuxN_succ 50, h50, matmulRow50,
      show (69888000 + 1397760) % Matmul.M64 = 71285760 from by
        norm_num [Matmul.M64]]
  have h52 : Matmul.checksumAuxN 52 = 72683520 := by
    rw [show (52 : Nat) = 51 + 1 from by norm_num,
      matmul_checksumAuxN_succ 51, h51, matmulRow51,
      show (71285760 + 1397760) % Matmul.M64 = 72683520 from by
        norm_num [Matmul.M64]]
  have h53 : Matmul.checksumAuxN 53 = 74081280 := by
    rw [show (53 : Nat) = 52 + 1 from by norm_num,
      matmul_checksumAuxN_succ 52, h52, matmulRow52,
      show (72683520 + 1397760) % Matmul.M64 = 74081280 from by
        norm_num [Matmul.M64]]
  have h54 : Matmul.checksumAuxN 54 = 75479040 := by
    rw [show (54 : Nat) = 53 + 1 from by norm_num,
      matmul_checksumAuxN_succ 53, h53, matmulRow53,
      show (74081280 + 1397760) % Matmul.M64 = 75479040 from by
        norm_num [Matmul.M64]]
  have h55 : Matmul.checksumAuxN 55 = 76876800 := by
    rw [show (55 : Nat) = 54 + 1 from by norm_num,
      matmul_checksumAuxN_succ 54, h54, matmulRow54,
      show (75479040 + 1397760) % Matmul.M64 = 76876800 from by
        norm_num [Matmul.M64]]
  have h56 : Matmul.checksumAuxN 56 = 78274560 := by
    rw [show (56 : Nat) = 55 + 1 from by norm_num,
      matmul_checksumAuxN_succ 55, h55, matmulRow55,
      show (76876800 + 1397760) % Matmul.M64 = 78274560 from by
        norm_num [Matmul.M64]]
  have h57 : Matmul.checksumAuxN 57 = 79672320 := by
    rw [show (57 : Nat) = 56 + 1 from by norm_num,
      matmul_checksumAuxN_succ 56, h56, matmulRow56,
      show (78274560 + 1397760) % Matmul.M64 = 79672320 from by
        norm_num [Matmul.M64]]
  have h58 : Matmul.checksumAuxN 58 = 81070080 := by
    rw [show (58 : Nat) = 57 + 1 from by norm_num,
      matmul_checksumAuxN_succ 57, h57, matmulRow57,
      show (79672320 + 1397760) % Matmul.M64 = 81070080 from by
        norm_num [Matmul.M64]]
  have h59 : Matmul.checksumAuxN 59 = 82467840 := by
    rw [show (59 : Nat) = 58 + 1 from by norm_num,
      matmul_checksumAuxN_succ 58, h58, matmulRow58,
      show (81070080 + 1397760) % Matmul.M64 = 82467840 from by
        norm_num [Matmul.M64]]
  have h60 : Matmul.checksumAuxN 60 = 83865600 := by
    rw [show (60 : Nat) = 59 + 1 from by norm_num,
      matmul_checksumAuxN_succ 59, h59, matmulRow59,
      show (82467840 + 1397760) % Matmul.M64 = 83865600 from by
        norm_num [Matmul.M64]]
  have h61 : Matmul.checksumAuxN 61 = 85263360 := by
    rw [show (61 : Nat) = 60 + 1 from by norm_num,
      matmul_checksumAuxN_succ 60, h60, matmulRow60,
      show (83865600 + 1397760) % Matmul.M64 = 85263360 from by
        norm_num [Matmul.M64]]
  have h62 : Matmul.checksumAuxN 62 = 86661120 := by
    rw [show (62 : Nat) = 61 + 1 from by norm_num,
      matmul_checksumAuxN_succ 61, h61, matmulRow61,
      show (85263360 + 1397760) % Matmul.M64 = 86661120 from by
        norm_num [Matmul.M64]]
  have h63 : Matmul.checksumAuxN 63 = 88058880 := by
    rw [show (63 : Nat) = 62 + 1 from by norm_num,
      matmul_checksumAuxN_succ 62, h62, matmulRow62,
      show (86661120 + 1397760) % Matmul.M64 = 88058880 from by
        norm_num [Matmul.M64]]
  have h64 : Matmul.checksumAuxN 64 = 89456640 := by
    rw [show (64 : Nat) = 63 + 1 from by norm_num,
      matmul_checksumAuxN_succ 63, h63, matmulRow63,
      show (88058880 + 1397760) % Matmul.M64 = 89456640 from by
        norm_num [Matmul.M64]]
  exact h64

/-- Claim C9: the checksum the 64×64 matmul guest prints — entries of
C = A·B computed in wrapping 32-bit signed arithmetic with A[i][j]=i+j,
B[i][j]=i−j, each sign-extended to 64 bits and summed with 64-bit wrap — is
the single constant 89456640, and at every loop prefix the wrapping
accumulation equals the plain sum of the sign-extended entries reduced
modulo 2^64 once (the spec's sum(C) mod 2^64 formula; at n = 64 this is the
printed checksum); print_dec renders the constant as the decimal text
89456640 and the closing power-device write of 0x5555 exits the run with
code 0. -/
theorem matmul_checksum_end_to_end :
    Matmul.checksum = 89456640 ∧
    (∀ n, Matmul.checksumAux n = Matmul.plainSum n % Matmul.M64) ∧
    GuestIo.print_dec 89456640 0 32 = [56, 57, 52, 53, 54, 54, 52, 48] ∧
    GuestIo.powerWriteExit 0x5555 = some 0 :=
  ⟨Matmul.checksum_bridge.trans matmul_checksumN_eq,
    Matmul.checksumAux_plain, rfl, rfl⟩

/-! ## Helper lemmas for C1 and C2 -/

namespace Virtio

theorem writeBytes_lt (bs : List Nat) :
    ∀ (m : Bytes) (a x : Nat), x < a → writeBytes m a bs x = m x := by
  induction bs with
  | nil => intro m a x _; rfl
  | cons b rest ih =>
    intro m a x hx
    show writeBytes (fun y => if y = a then b % 256 else m y) (a + 1) rest x = m x
    rw [ih _ (a + 1) x (by omega)]
    exact if_neg (by omega)

theorem writeBytes_ge (bs : List Nat) :
    ∀ (m : Bytes) (a x : Nat), a + bs.length ≤ x → writeBytes m a bs x = m x := by
  induction bs with
  | nil => intro m a x _; rfl
  | cons b rest ih =>
    intro m a x hx
    simp only [List.length_cons] at hx
    show writeBytes (fun y => if y = a then b % 256 else m y) (a + 1) rest x = m x
    rw [ih _ (a + 1) x (by omega)]
    exact if_neg (by omega)

theorem writeBytes_get (bs : List Nat) :
    ∀ (m : Bytes) (a off : Nat), off < bs.length →
      writeBytes m a bs (a + off) = bs.getD off 0 % 256 := by
  induction bs with
  | nil => intro m a off h; simp at h
  | cons b rest ih =>
    intro m a off h
    cases off with
    | zero =>
      show writeBytes (fun y => if y = a then b % 256 else m y) (a + 1) rest
        (a + 0) = _
      rw [writeBytes_lt rest _ (a + 1) (a + 0) (by omega)]
      simp
    | succ off =>
      show writeBytes (fun y => if y = a then b % 256 else m y) (a + 1) rest
        (a + (off + 1)) = _
      rw [show a + (off + 1) = (a + 1) + off from by omega]
      rw [ih _ (a + 1) off (by simp at h; omega)]
      rfl

theorem writeBytes_single (m : Bytes) (a b x : Nat) :
    writeBytes m a [b] x = if x = a then b % 256 else m x := rfl

theorem readBytes_length (m : Bytes) :
    ∀ (n a : Nat), (readBytes m a n).length = n := by
  intro n
  induction n with
  | zero => intro a; rfl
  | succ n ih =>
    intro a
    show (m a % 256 :: readBytes m (a + 1) n).length = n + 1
    simp [ih (a + 1)]

theorem readBytes_getD (m : Bytes) :
    ∀ (n a off : Nat), off < n →
      (readBytes m a n).getD off 0 = m (a + off) % 256 := by
  intro n
  induction n with
  | zero => intro a off h; omega
  | succ n ih =>
    intro a off h
    cases off with
    | zero =>
      show (m a % 256 :: readBytes m (a + 1) n).getD 0 0 = m (a + 0) % 256
      simp
    | succ off =>
      show (m a % 256 :: readBytes m (a + 1) n).getD (off + 1) 0 = _
      simp only [List.getD_cons_succ]
      rw [ih (a + 1) off (by omega)]
      rw [show a + 1 + off = a + (off + 1) from by omega]

end Virtio


namespace Virtio

theorem walkChain_three (q : VQueue) (h d st fuel : Nat)
    (hfuel : 3 ≤ fuel) (hh : h < q.num) (hd : d < q.num) (hst : st < q.num)
    (hhf : (q.desc h).flags &&& FLAG_NEXT ≠ 0) (hhn : (q.desc h).next = d)
    (hdf : (q.desc d).flags &&& FLAG_NEXT ≠ 0) (hdn : (q.desc d).next = st)
    (hstf : (q.desc st).flags &&& FLAG_NEXT = 0) :
    walkChain q h fuel = some [h, d, st] := by
  obtain ⟨f, rfl⟩ : ∃ f, fuel = f + 3 := ⟨fuel - 3, by omega⟩
  show walkChain q h (f + 3) = some [h, d, st]
  rw [show f + 3 = (f + 2) + 1 from rfl]
  unfold walkChain
  rw [if_pos hh, if_pos hhf, hhn]
  rw [show f + 2 = (f + 1) + 1 from rfl]
  unfold walkChain
  rw [if_pos hd, if_pos hdf, hdn]
  unfold walkChain
  rw [if_pos hst, if_neg (fun hne => hne hstf)]

theorem processChain_out_eq (mem disk : Bytes) (q : VQueue) (h d st s : Nat)
    (htype : readLE mem (q.desc h).paddr 4 = VIRTIO_BLK_T_OUT)
    (hsec : readLE mem ((q.desc h).paddr + 8) 8 = s) :
    processChain mem disk q [h, d, st] =
      (writeBytes mem (q.desc st).paddr [0],
        writeBytes disk (s * 512) (readBytes mem (q.desc d).paddr
          (q.desc d).len), 1) := by
  unfold processChain
  simp only [List.headD, List.getLastD, List.drop, List.dropLast, List.foldl,
    htype, hsec]
  norm_num [VIRTIO_BLK_T_OUT, VIRTIO_BLK_T_IN]

theorem processChain_in_eq (mem disk : Bytes) (q : VQueue) (h d st s : Nat)
    (htype : readLE mem (q.desc h).paddr 4 = VIRTIO_BLK_T_IN)
    (hsec : readLE mem ((q.desc h).paddr + 8) 8 = s) :
    processChain mem disk q [h, d, st] =
      (writeBytes (writeBytes mem (q.desc d).paddr
          (readBytes disk (s * 512) (q.desc d).len)) (q.desc st).paddr [0],
        disk, (q.desc d).len + 1) := by
  unfold processChain
  simp only [List.headD, List.getLastD, List.drop, List.dropLast, List.foldl,
    htype, hsec]
  norm_num [VIRTIO_BLK_T_IN]

end Virtio


namespace Virtio

theorem processOne_out_eq (mem : Bytes) (dev : BlkDev) (h d st s : Nat)
    (hnum : 3 ≤ dev.q.num) (hh : h < dev.q.num) (hd : d < dev.q.num)
    (hst : st < dev.q.num)
    (hhf : (dev.q.desc h).flags &&& FLAG_NEXT ≠ 0)
    (hhn : (dev.q.desc h).next = d)
    (hdf : (dev.q.desc d).flags &&& FLAG_NEXT ≠ 0)
    (hdn : (dev.q.desc d).next = st)
    (hstf : (dev.q.desc st).flags &&& FLAG_NEXT = 0)
    (hhead : dev.q.availRing (dev.q.lastAvailIdx % dev.q.num) = h)
    (htype : readLE mem (dev.q.desc h).paddr 4 = VIRTIO_BLK_T_OUT)
    (hsec : readLE mem ((dev.q.desc h).paddr + 8) 8 = s) :
    processOne mem dev = some (writeBytes mem (dev.q.desc st).paddr [0],
      { disk := writeBytes dev.disk (s * 512)
          (readBytes mem (dev.q.desc d).paddr (dev.q.desc d).len),
        q := { dev.q with
          usedRing := dev.q.usedRing ++ [(h, 1)],
          usedIdx := (dev.q.usedIdx + 1) % 65536,
          lastAvailIdx := (dev.q.lastAvailIdx + 1) % 65536 } }) := by
  simp only [processOne, hhead,
    walkChain_three dev.q h d st dev.q.num hnum hh hd hst hhf hhn hdf hdn hstf,
    processChain_out_eq mem dev.disk dev.q h d st s htype hsec]
  norm_num

theorem processOne_in_eq (mem : Bytes) (dev : BlkDev) (h d st s : Nat)
    (hnum : 3 ≤ dev.q.num) (hh : h < dev.q.num) (hd : d < dev.q.num)
    (hst : st < dev.q.num)
    (hhf : (dev.q.desc h).flags &&& FLAG_NEXT ≠ 0)
    (hhn : (dev.q.desc h).next = d)
    (hdf : (dev.q.desc d).flags &&& FLAG_NEXT ≠ 0)
    (hdn : (dev.q.desc d).next = st)
    (hstf : (dev.q.desc st).flags &&& FLAG_NEXT = 0)
    (hhead : dev.q.availRing (dev.q.lastAvailIdx % dev.q.num) = h)
    (htype : readLE mem (dev.q.desc h).paddr 4 = VIRTIO_BLK_T_IN)
    (hsec : readLE mem ((dev.q.desc h).paddr + 8) 8 = s) :
    processOne mem dev = some
      (writeBytes (writeBytes mem (dev.q.desc d).paddr
          (readBytes dev.disk (s * 512) (dev.q.desc d).len))
        (dev.q.desc st).paddr [0],
      { disk := dev.disk,
        q := { dev.q with
          usedRing := dev.q.usedRing ++ [(h, (dev.q.desc d).len + 1)],
          usedIdx := (dev.q.usedIdx + 1) % 65536,
          lastAvailIdx := (dev.q.lastAvailIdx + 1) % 65536 } }) := by
  simp only [processOne, hhead,
    walkChain_three dev.q h d st dev.q.num hnum hh hd hst hhf hhn hdf hdn hstf,
    processChain_in_eq mem dev.disk dev.q h d st s htype hsec]
  norm_num

theorem queueNotify_one (mem : Bytes) (dev : BlkDev) (m1 : Bytes)
    (d1 : BlkDev) (hpend : pendingCount dev.q = 1)
    (hone : processOne mem dev = some (m1, d1)) :
    queueNotify mem dev = some (m1, d1) := by
  unfold queueNotify
  rw [hpend]
  show (match processOne mem dev with
    | none => none
    | some (mem1, dev1) => notifyLoop mem1 dev1 0) = some (m1, d1)
  rw [hone]
  rfl

theorem notifyLoop_counts :
    ∀ (k : Nat) (mem : Bytes) (dev : BlkDev) (mem1 : Bytes) (dev1 : BlkDev),
      dev.q.usedIdx < 65536 → dev.q.lastAvailIdx < 65536 →
      notifyLoop mem dev k = some (mem1, dev1) →
      dev1.q.usedIdx = (dev.q.usedIdx + k) % 65536 ∧
      dev1.q.lastAvailIdx = (dev.q.lastAvailIdx + k) % 65536 ∧
      dev1.q.usedRing.length = dev.q.usedRing.length + k ∧
      dev1.q.availIdx = dev.q.availIdx := by
  intro k
  induction k with
  | zero =>
    intro mem dev mem1 dev1 hU hL hrun
    have : (mem, dev) = (mem1, dev1) := by
      simpa [notifyLoop] using hrun
    obtain ⟨rfl, rfl⟩ : mem = mem1 ∧ dev = dev1 := by
      constructor <;> [exact congrArg Prod.fst this; exact congrArg Prod.snd this]
    refine ⟨?_, ?_, rfl, rfl⟩ <;> omega
  | succ k ih =>
    intro mem dev mem1 dev1 hU hL hrun
    show _ ∧ _ ∧ _ ∧ _
    rw [show notifyLoop mem dev (k + 1) = (match processOne mem dev with
      | none => none
      | some (m2, d2) => notifyLoop m2 d2 k) from rfl] at hrun
    cases hone : processOne mem dev with
    | none => rw [hone] at hrun; cases hrun
    | some pair =>
      rw [hone] at hrun
      obtain ⟨m2, d2⟩ := pair
      -- invert processOne to learn the counter fields of d2
      cases hw : walkChain dev.q
          (dev.q.availRing (dev.q.lastAvailIdx % dev.q.num)) dev.q.num with
      | none =>
        simp only [processOne, hw] at hone
        exact Option.noConfusion hone
      | some chain =>
        simp only [processOne, hw] at hone
        by_cases hlen : chain.length < 2
        · rw [if_pos hlen] at hone; cases hone
        · rw [if_neg hlen] at hone
          have hpair := Option.some.inj hone
          have hd2 : d2 =
              { disk := (processChain mem dev.disk dev.q chain).2.1,
                q := { dev.q with
                usedRing := dev.q.usedRing ++
                  [(dev.q.availRing (dev.q.lastAvailIdx % dev.q.num),
                    (processChain mem dev.disk dev.q chain).2.2)],
                usedIdx := (dev.q.usedIdx + 1) % 65536,
                lastAvailIdx := (dev.q.lastAvailIdx + 1) % 65536 } } :=
            (congrArg Prod.snd hpair).symm
          have hrec := ih m2 d2 mem1 dev1 (by rw [hd2]; exact Nat.mod_lt _ (by omega))
            (by rw [hd2]; exact Nat.mod_lt _ (by omega)) hrun
          rw [hd2] at hrec
          simp only [List.length_append, List.length_cons, List.length_nil] at hrec
          obtain ⟨hu, hl, hr, ha⟩ := hrec
          refine ⟨?_, ?_, ?_, ha⟩
          · rw [hu]; omega
          · rw [hl]; omega
          · rw [hr]; simp; omega

end Virtio

/-- Claim C1: for the split-virtqueue block device over any backing image,
an OUT request that writes N sectors of guest memory starting at sector s —
submitted as the header/data/status 3-descriptor chain the virtio_blk_test
guest builds — completes with status byte 0 and lands the data in the
image; a subsequent IN request over the same N sectors (the device state
carrying that image), with the status descriptor outside the data buffer,
completes with status byte 0 and returns every buffer byte bit-identical to
the originally written pattern. -/
theorem virtio_block_round_trip
    (mem : Virtio.Bytes) (dev : Virtio.BlkDev) (h d st N s : Nat)
    (hnum : 3 ≤ dev.q.num) (hh : h < dev.q.num) (hd : d < dev.q.num)
    (hst : st < dev.q.num)
    (hhf : (dev.q.desc h).flags &&& Virtio.FLAG_NEXT ≠ 0)
    (hhn : (dev.q.desc h).next = d)
    (hdf : (dev.q.desc d).flags &&& Virtio.FLAG_NEXT ≠ 0)
    (hdn : (dev.q.desc d).next = st)
    (hstf : (dev.q.desc st).flags &&& Virtio.FLAG_NEXT = 0)
    (hhead : dev.q.availRing (dev.q.lastAvailIdx % dev.q.num) = h)
    (hpend : Virtio.pendingCount dev.q = 1)
    (hlen : (dev.q.desc d).len = N * 512)
    (htype : Virtio.readLE mem (dev.q.desc h).paddr 4 = Virtio.VIRTIO_BLK_T_OUT)
    (hsec : Virtio.readLE mem ((dev.q.desc h).paddr + 8) 8 = s)
    (mem2 : Virtio.Bytes) (dev2 : Virtio.BlkDev) (h2 d2 st2 : Nat)
    (hdisk2 : dev2.disk = Virtio.writeBytes dev.disk (s * 512)
      (Virtio.readBytes mem (dev.q.desc d).paddr (N * 512)))
    (hnum2 : 3 ≤ dev2.q.num) (hh2 : h2 < dev2.q.num) (hd2 : d2 < dev2.q.num)
    (hst2 : st2 < dev2.q.num)
    (hhf2 : (dev2.q.desc h2).flags &&& Virtio.FLAG_NEXT ≠ 0)
    (hhn2 : (dev2.q.desc h2).next = d2)
    (hdf2 : (dev2.q.desc d2).flags &&& Virtio.FLAG_NEXT ≠ 0)
    (hdn2 : (dev2.q.desc d2).next = st2)
    (hstf2 : (dev2.q.desc st2).flags &&& Virtio.FLAG_NEXT = 0)
    (hhead2 : dev2.q.availRing (dev2.q.lastAvailIdx % dev2.q.num) = h2)
    (hpend2 : Virtio.pendingCount dev2.q = 1)
    (hlen2 : (dev2.q.desc d2).len = N * 512)
    (htype2 : Virtio.readLE mem2 (dev2.q.desc h2).paddr 4 =
      Virtio.VIRTIO_BLK_T_IN)
    (hsec2 : Virtio.readLE mem2 ((dev2.q.desc h2).paddr + 8) 8 = s)
    (hdisj : (dev2.q.desc st2).paddr < (dev2.q.desc d2).paddr ∨
      (dev2.q.desc d2).paddr + N * 512 ≤ (dev2.q.desc st2).paddr) :
    (∃ dev1, Virtio.queueNotify mem dev =
        some (Virtio.writeBytes mem (dev.q.desc st).paddr [0], dev1) ∧
      dev1.disk = Virtio.writeBytes dev.disk (s * 512)
        (Virtio.readBytes mem (dev.q.desc d).paddr (N * 512)) ∧
      dev1.q.usedIdx = (dev.q.usedIdx + 1) % 65536) ∧
    Virtio.writeBytes mem (dev.q.desc st).paddr [0] (dev.q.desc st).paddr =
      0 ∧
    (∃ dev3, Virtio.queueNotify mem2 dev2 =
        some (Virtio.writeBytes (Virtio.writeBytes mem2 (dev2.q.desc d2).paddr
            (Virtio.readBytes dev2.disk (s * 512) (N * 512)))
          (dev2.q.desc st2).paddr [0], dev3) ∧
      dev3.q.usedIdx = (dev2.q.usedIdx + 1) % 65536) ∧
    Virtio.writeBytes (Virtio.writeBytes mem2 (dev2.q.desc d2).paddr
        (Virtio.readBytes dev2.disk (s * 512) (N * 512)))
      (dev2.q.desc st2).paddr [0] (dev2.q.desc st2).paddr = 0 ∧
    (∀ off, off < N * 512 →
      Virtio.writeBytes (Virtio.writeBytes mem2 (dev2.q.desc d2).paddr
          (Virtio.readBytes dev2.disk (s * 512) (N * 512)))
        (dev2.q.desc st2).paddr [0] ((dev2.q.desc d2).paddr + off) =
      mem ((dev.q.desc d).paddr + off) % 256) := by
  have hout := Virtio.processOne_out_eq mem dev h d st s hnum hh hd hst hhf
    hhn hdf hdn hstf hhead htype hsec
  rw [hlen] at hout
  have hq := Virtio.queueNotify_one mem dev _ _ hpend hout
  have hin := Virtio.processOne_in_eq mem2 dev2 h2 d2 st2 s hnum2 hh2 hd2
    hst2 hhf2 hhn2 hdf2 hdn2 hstf2 hhead2 htype2 hsec2
  rw [hlen2] at hin
  have hq2 := Virtio.queueNotify_one mem2 dev2 _ _ hpend2 hin
  refine ⟨⟨_, hq, rfl, rfl⟩, ?_, ⟨_, hq2, rfl⟩, ?_, ?_⟩
  · rw [Virtio.writeBytes_single]
    simp
  · rw [Virtio.writeBytes_single]
    simp
  · intro off hoff
    rw [Virtio.writeBytes_single]
    rw [if_neg (by omega)]
    rw [Virtio.writeBytes_get _ _ _ off
      (by rw [Virtio.readBytes_length]; exact hoff)]
    rw [Virtio.readBytes_getD _ _ _ _ hoff]
    rw [hdisk2]
    rw [Virtio.writeBytes_get _ _ _ off
      (by rw [Virtio.readBytes_length]; exact hoff)]
    rw [Virtio.readBytes_getD _ _ _ _ hoff]
    generalize mem ((dev.q.desc d).paddr + off) = v
    omega

set_option maxRecDepth 100000 in
/-- Claim C1 witness: in the concrete virtio_blk_test set-up — buffer
pattern i % 256 at 0x80002000, sector 0, one 512-byte sector — the OUT
status byte reads 0, the IN status byte reads 0, and the read-back buffer
byte at offset 37 is again 37. -/
theorem virtio_block_round_trip_witness :
    Virtio.writeBytes Virtio.memW (Virtio.devW.q.desc 2).paddr [0]
      (Virtio.devW.q.desc 2).paddr = 0 ∧
    Virtio.writeBytes (Virtio.writeBytes Virtio.mem2W
        (Virtio.dev2W.q.desc 1).paddr
        (Virtio.readBytes Virtio.dev2W.disk (0 * 512) (1 * 512)))
      (Virtio.dev2W.q.desc 2).paddr [0] (Virtio.dev2W.q.desc 2).paddr = 0 ∧
    Virtio.writeBytes (Virtio.writeBytes Virtio.mem2W
        (Virtio.dev2W.q.desc 1).paddr
        (Virtio.readBytes Virtio.dev2W.disk (0 * 512) (1 * 512)))
      (Virtio.dev2W.q.desc 2).paddr [0]
      ((Virtio.dev2W.q.desc 1).paddr + 37) = 37 := by
  have h := virtio_block_round_trip Virtio.memW Virtio.devW 0 1 2 1 0
    (by decide) (by decide) (by decide) (by decide) (by decide) (by decide)
    (by decide) (by decide) (by decide) (by decide) (by decide) (by decide)
    (by decide) (by decide)
    Virtio.mem2W Virtio.dev2W 0 1 2 rfl
    (by decide) (by decide) (by decide) (by decide) (by decide) (by decide)
    (by decide) (by decide) (by decide) (by decide) (by decide) (by decide)
    (by decide) (by decide) (by decide)
  refine ⟨h.2.1, h.2.2.2.1, ?_⟩
  have hb := h.2.2.2.2 37 (by decide)
  rw [hb]
  decide

/-- Claim C2: when the processing triggered by a QueueNotify store returns,
every chain published in avail has been consumed — last_avail_idx has
caught up with avail.idx, used.idx has been incremented by exactly one per
chain (modulo 2^16), one used-ring entry has been appended per chain — and
in the single-chain IN/OUT case the status byte 0 stands written in guest
memory, so the very next guest load observes it and the incremented
used.idx. -/
theorem virtio_notify_synchronous (mem mem1 : Virtio.Bytes)
    (dev dev1 : Virtio.BlkDev)
    (hU : dev.q.usedIdx < 65536) (hL : dev.q.lastAvailIdx < 65536)
    (hA : dev.q.availIdx < 65536)
    (hrun : Virtio.queueNotify mem dev = some (mem1, dev1)) :
    dev1.q.usedIdx =
      (dev.q.usedIdx + Virtio.pendingCount dev.q) % 65536 ∧
    dev1.q.lastAvailIdx = dev.q.availIdx ∧
    dev1.q.usedRing.length =
      dev.q.usedRing.length + Virtio.pendingCount dev.q ∧
    (∀ h d st s : Nat, Virtio.pendingCount dev.q = 1 →
      3 ≤ dev.q.num → h < dev.q.num → d < dev.q.num → st < dev.q.num →
      (dev.q.desc h).flags &&& Virtio.FLAG_NEXT ≠ 0 →
      (dev.q.desc h).next = d →
      (dev.q.desc d).flags &&& Virtio.FLAG_NEXT ≠ 0 →
      (dev.q.desc d).next = st →
      (dev.q.desc st).flags &&& Virtio.FLAG_NEXT = 0 →
      dev.q.availRing (dev.q.lastAvailIdx % dev.q.num) = h →
      (Virtio.readLE mem (dev.q.desc h).paddr 4 = Virtio.VIRTIO_BLK_T_IN ∨
        Virtio.readLE mem (dev.q.desc h).paddr 4 =
          Virtio.VIRTIO_BLK_T_OUT) →
      Virtio.readLE mem ((dev.q.desc h).paddr + 8) 8 = s →
      mem1 (dev.q.desc st).paddr = 0) := by
  have hcounts := Virtio.notifyLoop_counts (Virtio.pendingCount dev.q) mem
    dev mem1 dev1 hU hL hrun
  obtain ⟨hu, hl, hr, _⟩ := hcounts
  refine ⟨hu, ?_, hr, ?_⟩
  · rw [hl]
    unfold Virtio.pendingCount
    omega
  · intro h d st s hpend hnum hh hd hst hhf hhn hdf hdn hstf hhead htype hsec
    rcases htype with htin | htout
    · have hin := Virtio.processOne_in_eq mem dev h d st s hnum hh hd hst hhf
        hhn hdf hdn hstf hhead htin hsec
      have hq := Virtio.queueNotify_one mem dev _ _ hpend hin
      rw [hq] at hrun
      have hpair := Option.some.inj hrun
      rw [Prod.mk.injEq] at hpair
      obtain ⟨hm, -⟩ := hpair
      rw [← hm]
      rw [Virtio.writeBytes_single]
      simp
    · have hout := Virtio.processOne_out_eq mem dev h d st s hnum hh hd hst
        hhf hhn hdf hdn hstf hhead htout hsec
      have hq := Virtio.queueNotify_one mem dev _ _ hpend hout
      rw [hq] at hrun
      have hpair := Option.some.inj hrun
      rw [Prod.mk.injEq] at hpair
      obtain ⟨hm, -⟩ := hpair
      rw [← hm]
      rw [Virtio.writeBytes_single]
      simp

set_option maxRecDepth 100000 in
/-- Claim C2 witness: for the concrete one-chain OUT set-up, after the
notify-triggered processing the status byte at the status descriptor's
address reads 0 in guest memory. -/
theorem virtio_notify_synchronous_witness :
    Virtio.writeBytes Virtio.memW (Virtio.devW.q.desc 2).paddr [0]
      ((Virtio.devW.q.desc 2).paddr) = 0 := by
  have hout := Virtio.processOne_out_eq Virtio.memW Virtio.devW 0 1 2 0
    (by decide) (by decide) (by decide) (by decide) (by decide) (by decide)
    (by decide) (by decide) (by decide) (by decide) (by decide) (by decide)
  have hq := Virtio.queueNotify_one Virtio.memW Virtio.devW _ _ (by decide)
    hout
  have h := virtio_notify_synchronous Virtio.memW _ Virtio.devW _
    (by decide) (by decide) (by decide) hq
  exact h.2.2.2 0 1 2 0 (by decide) (by decide) (by decide) (by decide)
    (by decide) (by decide) (by decide) (by decide) (by decide) (by decide)
    (by decide) (Or.inr (by decide)) (by decide)
